import Mathlib

/-!
# Luna Linux Builder: the step pipeline and the command runner

A shallow embedding of `main.c` (the builder) and of `config_init` and
`config_expand_path` from `config.c`.

Conventions of the embedding.

* A C string is a Lean `String`: the text whose UTF-8 encoding is the byte
  string of the program.  Lengths and buffer limits count bytes (`char_size`,
  `byte_length`), so `strlen` is the byte count and `snprintf` into a buffer
  of `size` bytes keeps the leading characters that fit in `size - 1` bytes
  (`take_bytes`).  For single-byte text that is the first `size - 1`
  characters, exactly as in C.  When the limit falls inside a multi-byte
  character, C keeps the leading bytes of that character, which are no text;
  the model leaves them out, and the statements that say which bytes a cut
  text holds are made for single-byte text.
* The operating system is a record `OS σ` of state-passing functions over an
  arbitrary state type `σ`: the program never inspects that state, it only
  calls into it.  Every call the program makes is appended, with its outcome,
  to the event list `World.out`, oldest first.
* An `int` is an `Int`; the stage functions return `0` or `1` as in the source.
-/

namespace Luna

/-! ## Strings and buffers -/

/-- Number of bytes of the character `c` in a C string (its UTF-8 encoding). -/
def char_size (c : Char) : Nat :=
  if c.toNat < 0x80 then 1
  else if c.toNat < 0x800 then 2
  else if c.toNat < 0x10000 then 3
  else 4

/-- Number of bytes of a run of characters. -/
def byte_length : List Char → Nat
  | [] => 0
  | c :: cs => char_size c + byte_length cs

/-- The leading characters of a run that fit, whole, in `n` bytes. -/
def take_bytes : Nat → List Char → List Char
  | _, [] => []
  | n, c :: cs =>
    if char_size c ≤ n then c :: take_bytes (n - char_size c) cs else []

/-- The text `snprintf(buf, size, ...)` leaves in `buf` when the formatted text
is `text`: at most `size - 1` bytes are kept. -/
def snprintf (size : Nat) (text : String) : String :=
  ⟨take_bytes (size - 1) text.data⟩

/-- Index of the first occurrence of `needle` in `hay` (both as character
lists), as `strstr` finds it; `none` when there is none. -/
def strstr_from : List Char → List Char → Nat → Option Nat
  | [], needle, i => if needle = [] then some i else none
  | c :: hay, needle, i =>
    if needle <+: (c :: hay) then some i else strstr_from hay needle (i + 1)

/-- The offset `strstr(hay, needle) - hay`, or `none` for a `NULL` result. -/
def strstr (hay needle : String) : Option Nat :=
  strstr_from hay.data needle.data 0

/-- The C string `s + 1`: `s` without its first byte.  It is taken only of a
string that begins with `~`, a single byte. -/
def str_tail (s : String) : String :=
  ⟨s.data.drop 1⟩

/-- Result of `strlen`: the number of bytes before the terminator. -/
def strlen (s : String) : Nat :=
  byte_length s.data

/-- Place of the first `c` in `s`, or the end of `s`: `strcspn(s, "c")` for a
reject set of one single-byte character.  The place is counted in characters
of the model, and is used only to cut `s` there. -/
def strcspn1 (s : String) (c : Char) : Nat :=
  (s.data.takeWhile (fun x => x != c)).length

/-! ## Terminal colours -/

def COLOR_RED : String := "\x1b[0;31m"
def COLOR_GREEN : String := "\x1b[0;32m"
def COLOR_YELLOW : String := "\x1b[1;33m"
def COLOR_BLUE : String := "\x1b[0;34m"
def COLOR_MAGENTA : String := "\x1b[0;35m"
def COLOR_CYAN : String := "\x1b[0;36m"
def COLOR_RESET : String := "\x1b[0m"

/-- A run of `n` double horizontal rules, as the banners of `main.c` draw
them. -/
def rule (n : Nat) : String :=
  ⟨List.replicate n '═'⟩

/-! ## Configuration record -/

/-- The `BuildConfig` struct of `main.c`.  The `char[N]` fields are strings;
the writes that fill them go through `snprintf`. -/
structure BuildConfig where
  distro_name : String
  distro_short_name : String
  version : String
  codename : String
  ubuntu_version : String
  ubuntu_codename : String
  arch : String
  workdir : String
  chroot : String
  imagedir : String
  isodir : String
  output_iso : String
  verbose : Int
  clean_build : Int
  deriving DecidableEq, Repr

/-- Body of `init_config`; `home` is the value of `getenv("HOME")`.  A run
with `HOME` unset hands `NULL` to `snprintf` and is outside the model. -/
def init_config (home : String) : BuildConfig :=
  let workdir := snprintf 256 (home ++ "/luna-linux-build")
  let ubuntu_version := "22.04"
  let arch := "amd64"
  { distro_name := "Luna Linux"
    distro_short_name := "luna-linux"
    version := "1.0"
    codename := "stellar"
    ubuntu_version := ubuntu_version
    ubuntu_codename := "jammy"
    arch := arch
    workdir := workdir
    chroot := snprintf 256 (workdir ++ "/chroot")
    imagedir := snprintf 256 (workdir ++ "/image")
    isodir := snprintf 256 (workdir ++ "/iso")
    output_iso := snprintf 256 (home ++ "/Luna-Linux-" ++ ubuntu_version ++ "-" ++ arch ++ ".iso")
    verbose := 0
    clean_build := 0 }

/-! ## The operating system and the record of calls -/

/-- The value of `errno` for "file exists". -/
def EEXIST : Nat := 17

/-- One call into the outside world, with its outcome. -/
inductive Event
  /-- Text written to standard output by `printf`. -/
  | stdout (text : String)
  /-- Text written to standard error by `fprintf(stderr, ...)`. -/
  | stderr (text : String)
  /-- The three `printf` calls of `print_progress`; the percentage is a
  floating-point rendering of `step / total` and is not spelled out. -/
  | progress (step total : Nat) (message : String)
  /-- A call `perror(message)`; the system text that follows the message is
  left out. -/
  | perror (message : String)
  /-- A call `system(cmd)` and the status it returned. -/
  | system (cmd : String) (status : Int)
  /-- A call `mkdir(path, mode)`: `none` when it returned `0`, `some e` when it
  failed with `errno = e`. -/
  | mkdir (path : String) (mode : Nat) (err : Option Nat)
  /-- A call `fopen(path, "w")`; `ok` is false for a `NULL` result. -/
  | fopen (path : String) (ok : Bool)
  /-- A call `fputs(content, fp)` on the stream opened on `path`; `ok` is false
  for `EOF`. -/
  | fputs (path : String) (content : String) (ok : Bool)
  | fclose (path : String)
  | chmod (path : String) (mode : Nat)
  /-- A call `popen(cmd, "r")`: `none` for a `NULL` result, otherwise all the
  text the command writes to the pipe. -/
  | popen (cmd : String) (output : Option String)
  | pclose (cmd : String)
  | unlink (path : String)
  /-- A call `stat(path, &st)`: `none` when it fails, else `st.st_size`. -/
  | stat (path : String) (size : Option Nat)
  deriving DecidableEq, Repr

/-- The system calls and library calls the builder makes, as functions of an
outside state `σ`. -/
structure OS (σ : Type) where
  system : String → σ → Int × σ
  mkdir : String → Nat → σ → Option Nat × σ
  fopen_w : String → σ → Bool × σ
  fputs : String → String → σ → Bool × σ
  fclose : String → σ → σ
  chmod : String → Nat → σ → σ
  popen_r : String → σ → Option String × σ
  pclose : String → σ → σ
  unlink : String → σ → σ
  stat_size : String → σ → Option Nat
  getuid : σ → Nat
  ctime_now : σ → String

/-- The outside state together with everything the program did so far. -/
structure World (σ : Type) where
  sys : σ
  out : List Event

variable {σ : Type}

/-- Append one event to the record. -/
def World.emit (w : World σ) (e : Event) : World σ :=
  { w with out := w.out ++ [e] }

/-- A `printf` of `text`. -/
def printf (text : String) (w : World σ) : World σ :=
  w.emit (.stdout text)

/-- The events of `w2` that come after those of `w1`. -/
def events_since (w1 w2 : World σ) : List Event :=
  w2.out.drop w1.out.length

def call_system (os : OS σ) (cmd : String) (w : World σ) : Int × World σ :=
  let r := os.system cmd w.sys
  (r.1, { sys := r.2, out := w.out ++ [.system cmd r.1] })

def call_mkdir (os : OS σ) (path : String) (mode : Nat) (w : World σ) :
    Option Nat × World σ :=
  let r := os.mkdir path mode w.sys
  (r.1, { sys := r.2, out := w.out ++ [.mkdir path mode r.1] })

def call_fopen (os : OS σ) (path : String) (w : World σ) : Bool × World σ :=
  let r := os.fopen_w path w.sys
  (r.1, { sys := r.2, out := w.out ++ [.fopen path r.1] })

def call_fputs (os : OS σ) (path content : String) (w : World σ) : Bool × World σ :=
  let r := os.fputs path content w.sys
  (r.1, { sys := r.2, out := w.out ++ [.fputs path content r.1] })

def call_fclose (os : OS σ) (path : String) (w : World σ) : World σ :=
  { sys := os.fclose path w.sys, out := w.out ++ [.fclose path] }

def call_chmod (os : OS σ) (path : String) (mode : Nat) (w : World σ) : World σ :=
  { sys := os.chmod path mode w.sys, out := w.out ++ [.chmod path mode] }

def call_popen (os : OS σ) (cmd : String) (w : World σ) : Option String × World σ :=
  let r := os.popen_r cmd w.sys
  (r.1, { sys := r.2, out := w.out ++ [.popen cmd r.1] })

def call_pclose (os : OS σ) (cmd : String) (w : World σ) : World σ :=
  { sys := os.pclose cmd w.sys, out := w.out ++ [.pclose cmd] }

def call_unlink (os : OS σ) (path : String) (w : World σ) : World σ :=
  { sys := os.unlink path w.sys, out := w.out ++ [.unlink path] }

def call_stat (os : OS σ) (path : String) (w : World σ) : Option Nat × World σ :=
  let r := os.stat_size path w.sys
  (r, { sys := w.sys, out := w.out ++ [.stat path r] })

/-! ## The command runner -/

/-- The line `execute_command` prints before running a command when
`show_output` is set. -/
def echo_line (cmd : String) : String :=
  COLOR_CYAN ++ "Выполнение: " ++ cmd ++ "\n" ++ COLOR_RESET

/-- The error line of `execute_command`. -/
def error_line (cmd : String) : String :=
  COLOR_RED ++ "Ошибка выполнения команды: " ++ cmd ++ "\n" ++ COLOR_RESET

/-- Function `execute_command` of `main.c`. -/
def execute_command (os : OS σ) (cmd : String) (show_output : Int) (w : World σ) :
    Int × World σ :=
  let w1 := if show_output ≠ 0 then printf (echo_line cmd) w else w
  let (status, w2) := call_system os cmd w1
  if status ≠ 0 then
    let w3 := if show_output = 0 then printf (error_line cmd) w2 else w2
    (1, w3)
  else
    (0, w2)

/-- Function `write_file` of `main.c`. -/
def write_file (os : OS σ) (filename content : String) (w : World σ) : Int × World σ :=
  let (opened, w1) := call_fopen os filename w
  if !opened then
    (1, w1.emit (.perror "Ошибка открытия файла"))
  else
    let (written, w2) := call_fputs os filename content w1
    if !written then
      (1, call_fclose os filename (w2.emit (.perror "Ошибка записи в файл")))
    else
      (0, call_chmod os filename 0o755 (call_fclose os filename w2))

/-! ## Stage 1: directory structure -/

/-- The block `if (config->clean_build) { ... }` of
`create_directory_structure`: the result of the `rm -rf` command is dropped. -/
def clean_previous_build (os : OS σ) (config : BuildConfig) (w : World σ) : World σ :=
  if config.clean_build ≠ 0 then
    (execute_command os (snprintf 512 ("rm -rf " ++ config.workdir)) 0 w).2
  else w

/-- The array `dirs` of `create_directory_structure`. -/
def staging_dirs (config : BuildConfig) : List String :=
  [config.workdir, config.chroot, config.imagedir, config.isodir]

/-- The loop `for (i = 0; dirs[i] != NULL; i++)` of
`create_directory_structure`, over the entries of `dirs` still to visit. -/
def make_dirs (os : OS σ) : List String → World σ → Int × World σ
  | [], w => (0, w)
  | d :: rest, w =>
    let (err, w1) := call_mkdir os d 0o755 w
    match err with
    | some e =>
      if e ≠ EEXIST then (1, w1.emit (.perror "Ошибка создания каталога"))
      else make_dirs os rest w1
    | none => make_dirs os rest w1

/-- Function `create_directory_structure` of `main.c`. -/
def create_directory_structure (os : OS σ) (config : BuildConfig) (w : World σ) :
    Int × World σ :=
  let w1 := printf (COLOR_YELLOW ++ "Создание структуры каталогов...\n" ++ COLOR_RESET) w
  let w2 := clean_previous_build os config w1
  make_dirs os (staging_dirs config) w2

/-! ## Stage 2: base system -/

/-- The bootstrap command line formatted by `build_base_system`. -/
def mmdebstrap_cmd (config : BuildConfig) : String :=
  snprintf 1024
    ("mmdebstrap --variant=important " ++
     "--include=systemd,systemd-sysv,dbus,locales,kbd,console-setup,network-manager " ++
     config.ubuntu_codename ++ " " ++ config.chroot ++ " http://archive.ubuntu.com/ubuntu/")

/-- Function `build_base_system` of `main.c`. -/
def build_base_system (os : OS σ) (config : BuildConfig) (w : World σ) : Int × World σ :=
  let w1 := printf (COLOR_YELLOW ++ "Построение базовой системы...\n" ++ COLOR_RESET) w
  let (found, w2) := execute_command os "which mmdebstrap" 0 w1
  if found ≠ 0 then
    let w3 := printf (COLOR_RED ++ "Ошибка: mmdebstrap не установлен\n" ++ COLOR_RESET) w2
    (1, printf "Установите: apt install mmdebstrap\n" w3)
  else
    execute_command os (mmdebstrap_cmd config) config.verbose w2

/-! ## Stages 3 to 6: scripts run inside the chroot -/

/-- The script text `grub_setup` of `customize_grub`. -/
def grub_setup : String :=
  "#!/bin/bash\n" ++
  "set -e\n\n" ++
  "# Установка GRUB\n" ++
  "apt update\n" ++
  "apt install -y grub2-common grub-pc grub-efi-amd64 grub-efi-amd64-bin\n\n" ++
  "# Создание кастомной темы Luna Linux\n" ++
  "mkdir -p /boot/grub/themes/luna-linux\n\n" ++
  "# Создание файла темы\n" ++
  "cat > /boot/grub/themes/luna-linux/theme.txt << 'EOF'\n" ++
  "# Luna Linux GRUB Theme\n\n" ++
  "desktop-color: \"#0f0f1a\"\n" ++
  "desktop-image: \"background.png\"\n\n" ++
  "+ boot_menu \x7b\n" ++
  "    left = 30%\n" ++
  "    top = 30%\n" ++
  "    width = 40%\n" ++
  "    height = 40%\n" ++
  "    item_font = \"Unifont Regular 16\"\n" ++
  "    item_color = \"#ffffff\"\n" ++
  "    selected_item_color = \"#ff6600\"\n" ++
  "    item_height = 40\n" ++
  "    item_spacing = 10\n" ++
  "\x7d\n\n" ++
  "+ label \x7b\n" ++
  "    text = \"Luna Linux\"\n" ++
  "    color = \"#ff6600\"\n" ++
  "    font = \"Unifont Regular 24\"\n" ++
  "    left = 50%\n" ++
  "    top = 20%\n" ++
  "    align = \"center\"\n" ++
  "\x7d\n\n" ++
  "+ label \x7b\n" ++
  "    text = \"Stellar Edition\"\n" ++
  "    color = \"#aaaaaa\"\n" ++
  "    font = \"Unifont Regular 16\"\n" ++
  "    left = 50%\n" ++
  "    top = 26%\n" ++
  "    align = \"center\"\n" ++
  "\x7d\n" ++
  "EOF\n\n" ++
  "# Создание фонового изображения (простой градиент)\n" ++
  "echo 'iVBORw0KGgoAAAANSUhEUgAAAEAAAABACAYAAACqaXHeAAAABHNCSVQICAgIfAhkiAAAAAlwSFlzAAAOxAAADsQBlSsOGwAAABl0RVh0U29mdHdhcmUAd3d3Lmlua3NjYXBlLm9yZ5vuPBoAAAArSURBVHic7cEBDQAAAMKg9U9tCF8gAAAAAAAAAAAAAAAAAAAAAAAAAAAAAAB8GQNkAAECp1Zh3QAAAABJRU5ErkJggg==' | base64 -d > /boot/grub/themes/luna-linux/background.png\n\n" ++
  "# Настройка конфигурации GRUB\n" ++
  "cat > /etc/default/grub << 'EOF'\n" ++
  "GRUB_DEFAULT=0\n" ++
  "GRUB_TIMEOUT=10\n" ++
  "GRUB_TIMEOUT_STYLE=menu\n" ++
  "GRUB_DISTRIBUTOR=\"Luna Linux\"\n" ++
  "GRUB_CMDLINE_LINUX_DEFAULT=\"quiet splash\"\n" ++
  "GRUB_CMDLINE_LINUX=\"\"\n" ++
  "GRUB_BACKGROUND=\"/boot/grub/themes/luna-linux/background.png\"\n" ++
  "GRUB_THEME=\"/boot/grub/themes/luna-linux/theme.txt\"\n" ++
  "GRUB_GFXMODE=auto\n" ++
  "GRUB_DISABLE_OS_PROBER=false\n" ++
  "GRUB_DISABLE_RECOVERY=\"true\"\n" ++
  "EOF\n\n" ++
  "# Обновление GRUB\n" ++
  "update-grub\n"

/-- The script text `kde_setup` of `install_kde_plasma`. -/
def kde_setup : String :=
  "#!/bin/bash\n" ++
  "set -e\n\n" ++
  "apt update\n" ++
  "apt install -y \\\n" ++
  "    kde-plasma-desktop \\\n" ++
  "    plasma-workspace-wayland \\\n" ++
  "    kwin-wayland \\\n" ++
  "    sddm \\\n" ++
  "    sddm-theme-breeze \\\n" ++
  "    plasma-nm \\\n" ++
  "    plasma-pa \\\n" ++
  "    dolphin \\\n" ++
  "    konsole \\\n" ++
  "    kate \\\n" ++
  "    ark\n\n" ++
  "# Настройка SDDM\n" ++
  "cat > /etc/sddm.conf << 'EOF'\n" ++
  "[Autologin]\n" ++
  "User=luna\n" ++
  "Session=plasmawayland\n\n" ++
  "[Theme]\n" ++
  "Current=breeze\n\n" ++
  "[Wayland]\n" ++
  "CompositorCommand=kwin_wayland --no-lockscreen\n" ++
  "EOF\n\n" ++
  "# Создание пользователя luna\n" ++
  "useradd -m -s /bin/bash luna || true\n" ++
  "echo \"luna:luna\" | chpasswd\n" ++
  "usermod -aG sudo luna\n" ++
  "echo \"luna ALL=(ALL) NOPASSWD:ALL\" > /etc/sudoers.d/luna\n" ++
  "chmod 440 /etc/sudoers.d/luna\n"

/-- The script text `calamares_setup` of `install_calamares`. -/
def calamares_setup : String :=
  "#!/bin/bash\n" ++
  "set -e\n\n" ++
  "apt install -y calamares calamares-settings-ubuntu\n\n" ++
  "# Создание конфигурации для Luna Linux\n" ++
  "mkdir -p /etc/calamares\n" ++
  "cp -r /usr/share/calamares/* /etc/calamares/\n\n" ++
  "# Брендинг Luna Linux\n" ++
  "mkdir -p /usr/share/calamares/branding/luna-linux\n" ++
  "cat > /usr/share/calamares/branding/luna-linux/branding.desc << 'EOF'\n" ++
  "---\n" ++
  "componentName:  Luna Linux\n" ++
  "shortName:      Luna\n" ++
  "version:        1.0\n" ++
  "bootloaderEntryName: \"Luna Linux\"\n" ++
  "welcomeStyleCalamares: true\n" ++
  "---\n" ++
  "EOF\n"

/-- The script text `software_setup` of `install_additional_software`. -/
def software_setup : String :=
  "#!/bin/bash\n" ++
  "set -e\n\n" ++
  "apt update\n" ++
  "apt install -y \\\n" ++
  "    firefox \\\n" ++
  "    libreoffice \\\n" ++
  "    vlc \\\n" ++
  "    gimp \\\n" ++
  "    neofetch \\\n" ++
  "    curl \\\n" ++
  "    wget \\\n" ++
  "    git \\\n" ++
  "    nano\n\n" ++
  "# Создание системных идентификаторов Luna Linux\n" ++
  "echo \"Luna Linux Stellar 1.0\" > /etc/luna-linux-release\n" ++
  "cat > /etc/os-release << 'EOF'\n" ++
  "NAME=\"Luna Linux\"\n" ++
  "VERSION=\"1.0 (Stellar)\"\n" ++
  "ID=luna\n" ++
  "ID_LIKE=ubuntu debian\n" ++
  "PRETTY_NAME=\"Luna Linux Stellar\"\n" ++
  "VERSION_ID=\"1.0\"\n" ++
  "HOME_URL=\"https://luna-linux.org\"\n" ++
  "SUPPORT_URL=\"https://forum.luna-linux.org\"\n" ++
  "BUG_REPORT_URL=\"https://bugs.luna-linux.org\"\n" ++
  "PRIVACY_POLICY_URL=\"https://luna-linux.org/privacy\"\n" ++
  "VERSION_CODENAME=stellar\n" ++
  "UBUNTU_CODENAME=jammy\n" ++
  "EOF\n\n" ++
  "cat > /etc/lsb-release << 'EOF'\n" ++
  "DISTRIB_ID=LunaLinux\n" ++
  "DISTRIB_RELEASE=1.0\n" ++
  "DISTRIB_CODENAME=stellar\n" ++
  "DISTRIB_DESCRIPTION=\"Luna Linux Stellar\"\n" ++
  "EOF\n\n" ++
  "# Чистка системы\n" ++
  "apt autoremove -y\n" ++
  "apt clean\n"

/-- The boot menu `grub_cfg` written by `create_boot_structure`. -/
def grub_cfg : String :=
  "set timeout=30\n" ++
  "set default=0\n\n" ++
  "menuentry \"Start Luna Linux Live (Wayland)\" \x7b\n" ++
  "    linux /casper/vmlinuz boot=casper noprompt quiet splash ---\n" ++
  "    initrd /casper/initrd\n" ++
  "\x7d\n\n" ++
  "menuentry \"Start Luna Linux Live (Safe Graphics)\" \x7b\n" ++
  "    linux /casper/vmlinuz boot=casper nomodeset quiet splash ---\n" ++
  "    initrd /casper/initrd\n" ++
  "\x7d\n\n" ++
  "menuentry \"Install Luna Linux\" \x7b\n" ++
  "    linux /casper/vmlinuz boot=casper noprompt only-ubiquity quiet splash ---\n" ++
  "    initrd /casper/initrd\n" ++
  "\x7d\n\n" ++
  "menuentry \"Boot from first hard disk\" \x7b\n" ++
  "    set root=(hd0)\n" ++
  "    chainloader +1\n" ++
  "\x7d\n"

/-- The text `disk_info` written by `create_boot_structure`. -/
def disk_info : String :=
  "Luna Linux Stellar 1.0 amd64\n" ++
  "Based on Ubuntu 22.04 LTS\n"


/-- Function `customize_grub` of `main.c`. -/
def customize_grub (os : OS σ) (config : BuildConfig) (w : World σ) : Int × World σ :=
  let w1 := printf (COLOR_YELLOW ++ "Настройка кастомного GRUB с логотипом Луны...\n" ++ COLOR_RESET) w
  let script_path := "/tmp/setup-grub.sh"
  let (written, w2) := write_file os script_path grub_setup w1
  if written ≠ 0 then (1, w2)
  else
    let w3 := (execute_command os
      (snprintf 512 ("cp " ++ script_path ++ " " ++ config.chroot ++ "/tmp/")) 0 w2).2
    let w4 := (execute_command os
      (snprintf 512 ("chmod +x " ++ config.chroot ++ "/tmp/setup-grub.sh")) 0 w3).2
    execute_command os
      (snprintf 512 ("chroot " ++ config.chroot ++ " /bin/bash /tmp/setup-grub.sh"))
      config.verbose w4

/-- Function `install_kde_plasma` of `main.c`. -/
def install_kde_plasma (os : OS σ) (config : BuildConfig) (w : World σ) : Int × World σ :=
  let w1 := printf (COLOR_YELLOW ++ "Установка KDE Plasma с Wayland...\n" ++ COLOR_RESET) w
  let script_path := "/tmp/setup-kde.sh"
  let (written, w2) := write_file os script_path kde_setup w1
  if written ≠ 0 then (1, w2)
  else
    let w3 := (execute_command os
      (snprintf 512 ("cp " ++ script_path ++ " " ++ config.chroot ++ "/tmp/")) 0 w2).2
    let w4 := (execute_command os
      (snprintf 512 ("chmod +x " ++ config.chroot ++ "/tmp/setup-kde.sh")) 0 w3).2
    execute_command os
      (snprintf 512 ("chroot " ++ config.chroot ++ " /bin/bash /tmp/setup-kde.sh"))
      config.verbose w4

/-- Function `install_calamares` of `main.c`. -/
def install_calamares (os : OS σ) (config : BuildConfig) (w : World σ) : Int × World σ :=
  let w1 := printf (COLOR_YELLOW ++ "Установка Calamares...\n" ++ COLOR_RESET) w
  let script_path := "/tmp/setup-calamares.sh"
  let (written, w2) := write_file os script_path calamares_setup w1
  if written ≠ 0 then (1, w2)
  else
    let w3 := (execute_command os
      (snprintf 512 ("cp " ++ script_path ++ " " ++ config.chroot ++ "/tmp/")) 0 w2).2
    let w4 := (execute_command os
      (snprintf 512 ("chmod +x " ++ config.chroot ++ "/tmp/setup-calamares.sh")) 0 w3).2
    execute_command os
      (snprintf 512 ("chroot " ++ config.chroot ++ " /bin/bash /tmp/setup-calamares.sh"))
      config.verbose w4

/-- Function `install_additional_software` of `main.c`. -/
def install_additional_software (os : OS σ) (config : BuildConfig) (w : World σ) :
    Int × World σ :=
  let w1 := printf (COLOR_YELLOW ++ "Установка дополнительного ПО...\n" ++ COLOR_RESET) w
  let script_path := "/tmp/setup-software.sh"
  let (written, w2) := write_file os script_path software_setup w1
  if written ≠ 0 then (1, w2)
  else
    let w3 := (execute_command os
      (snprintf 512 ("cp " ++ script_path ++ " " ++ config.chroot ++ "/tmp/")) 0 w2).2
    let w4 := (execute_command os
      (snprintf 512 ("chmod +x " ++ config.chroot ++ "/tmp/setup-software.sh")) 0 w3).2
    execute_command os
      (snprintf 512 ("chroot " ++ config.chroot ++ " /bin/bash /tmp/setup-software.sh"))
      config.verbose w4

/-! ## Stage 7: kernel, initrd and the squashfs image -/

/-- The text `fgets(buf, size, fp)` stores when `stream` is what is left to
read: `none` at end of file, else the characters up to and including the
first newline, at most `size - 1` bytes of them. -/
def fgets (size : Nat) (stream : String) : Option String :=
  match stream.data with
  | [] => none
  | c :: cs =>
    let window := take_bytes (size - 1) (c :: cs)
    let body := window.takeWhile (fun x => x != '\n')
    some ⟨body ++ (window.drop body.length).take 1⟩

/-- The statement `buf[strcspn(buf, "\n")] = 0`. -/
def cut_at_newline (buf : String) : String :=
  ⟨buf.data.take (strcspn1 buf '\n')⟩

/-- Function `prepare_iso_files` of `main.c`. -/
def prepare_iso_files (os : OS σ) (config : BuildConfig) (w : World σ) : Int × World σ :=
  let w1 := printf (COLOR_YELLOW ++ "Подготовка файлов для ISO...\n" ++ COLOR_RESET) w
  let find_cmd := snprintf 512
    ("find " ++ config.chroot ++ "/boot -name 'vmlinuz-*' -type f | head -1")
  let (fp, w2) := call_popen os find_cmd w1
  match fp with
  | none => (1, w2)
  | some stream =>
    match fgets 512 stream with
    | none => (1, call_pclose os find_cmd w2)
    | some line =>
      let w3 := call_pclose os find_cmd w2
      let vmlinuz_path := cut_at_newline line
      let (copied, w4) := execute_command os
        (snprintf 512 ("cp " ++ vmlinuz_path ++ " " ++ config.imagedir ++ "/vmlinuz"))
        config.verbose w3
      if copied ≠ 0 then (1, w4)
      else
        let find_cmd2 := snprintf 512
          ("find " ++ config.chroot ++ "/boot -name 'initrd.img-*' -type f | head -1")
        let (fp2, w5) := call_popen os find_cmd2 w4
        match fp2 with
        | none => (1, w5)
        | some stream2 =>
          match fgets 512 stream2 with
          | none => (1, call_pclose os find_cmd2 w5)
          | some line2 =>
            let w6 := call_pclose os find_cmd2 w5
            let initrd_path := cut_at_newline line2
            let (copied2, w7) := execute_command os
              (snprintf 512 ("cp " ++ initrd_path ++ " " ++ config.imagedir ++ "/initrd"))
              config.verbose w6
            if copied2 ≠ 0 then (1, w7)
            else
              let w8 := printf (COLOR_YELLOW ++ "Создание squashfs образа...\n" ++ COLOR_RESET) w7
              execute_command os
                (snprintf 512 ("mksquashfs " ++ config.chroot ++ " " ++ config.imagedir ++
                  "/filesystem.squashfs -comp xz -b 1M -noappend"))
                config.verbose w8

/-! ## Stage 8: boot structure -/

/-- The array `dirs` of `create_boot_structure`. -/
def boot_dirs : List String :=
  ["/boot/grub", "/casper", "/.disk"]

/-- The directory loop of `create_boot_structure`: each path is formatted as
`"%s/%s"` from `isodir` and an entry of `dirs` (which begins with a slash of
its own), and the result of `mkdir` is not looked at. -/
def make_boot_dirs (os : OS σ) (config : BuildConfig) : List String → World σ → World σ
  | [], w => w
  | d :: rest, w =>
    make_boot_dirs os config rest
      (call_mkdir os (snprintf 512 (config.isodir ++ "/" ++ d)) 0o755 w).2

/-- Function `create_boot_structure` of `main.c`. -/
def create_boot_structure (os : OS σ) (config : BuildConfig) (w : World σ) :
    Int × World σ :=
  let w1 := printf (COLOR_YELLOW ++ "Создание загрузочной структуры LiveCD...\n" ++ COLOR_RESET) w
  let w2 := make_boot_dirs os config boot_dirs w1
  let w3 := (execute_command os
    (snprintf 512 ("cp " ++ config.imagedir ++ "/vmlinuz " ++ config.isodir ++ "/casper/")) 0 w2).2
  let w4 := (execute_command os
    (snprintf 512 ("cp " ++ config.imagedir ++ "/initrd " ++ config.isodir ++ "/casper/")) 0 w3).2
  let w5 := (execute_command os
    (snprintf 512 ("cp " ++ config.imagedir ++ "/filesystem.squashfs " ++ config.isodir ++
      "/casper/")) 0 w4).2
  let grub_cfg_path := snprintf 512 (config.isodir ++ "/boot/grub/grub.cfg")
  let (written, w6) := write_file os grub_cfg_path grub_cfg w5
  if written ≠ 0 then (1, w6)
  else
    let disk_info_path := snprintf 512 (config.isodir ++ "/.disk/info")
    let (written2, w7) := write_file os disk_info_path disk_info w6
    if written2 ≠ 0 then (1, w7)
    else (0, w7)

/-! ## Stage 9: the ISO image -/

/-- The mastering command line formatted by `create_iso_image`. -/
def xorriso_cmd (config : BuildConfig) : String :=
  snprintf 1024
    ("xorriso -as mkisofs \\\n" ++
     "    -volid \"Luna Linux\" \\\n" ++
     "    -full-iso9660-filenames \\\n" ++
     "    -joliet \\\n" ++
     "    -rational-rock \\\n" ++
     "    -iso-level 3 \\\n" ++
     "    -eltorito-boot boot/grub/bios.img \\\n" ++
     "    -no-emul-boot \\\n" ++
     "    -boot-load-size 4 \\\n" ++
     "    -boot-info-table \\\n" ++
     "    --efi-boot boot/grub/efi.img \\\n" ++
     "    -efi-boot-part --efi-boot-image \\\n" ++
     "    --protective-msdos-label \\\n" ++
     "    -isohybrid-gpt-basdat \\\n" ++
     "    -o \"" ++ config.output_iso ++ "\" \\\n" ++
     "    \"" ++ config.isodir ++ "\"")

/-- Function `create_iso_image` of `main.c`. -/
def create_iso_image (os : OS σ) (config : BuildConfig) (w : World σ) : Int × World σ :=
  let w1 := printf (COLOR_YELLOW ++ "Создание ISO образа...\n" ++ COLOR_RESET) w
  let (found, w2) := execute_command os "which xorriso" 0 w1
  if found ≠ 0 then
    let w3 := printf (COLOR_RED ++ "Ошибка: xorriso не установлен\n" ++ COLOR_RESET) w2
    (1, printf "Установите: apt install xorriso\n" w3)
  else
    execute_command os (xorriso_cmd config) config.verbose w2

/-! ## Stage 10: cleanup -/

/-- The array `scripts` of `cleanup_build`. -/
def cleanup_scripts : List String :=
  ["/tmp/setup-grub.sh", "/tmp/setup-kde.sh", "/tmp/setup-calamares.sh",
   "/tmp/setup-software.sh"]

/-- The loop of `cleanup_build`. -/
def unlink_all (os : OS σ) : List String → World σ → World σ
  | [], w => w
  | s :: rest, w => unlink_all os rest (call_unlink os s w)

/-- Function `cleanup_build` of `main.c`. -/
def cleanup_build (os : OS σ) (_config : BuildConfig) (w : World σ) : Int × World σ :=
  let w1 := printf (COLOR_YELLOW ++ "Очистка временных файлов...\n" ++ COLOR_RESET) w
  (0, unlink_all os cleanup_scripts w1)

/-! ## The pipeline driver -/

/-- The array `steps` of `main`. -/
def steps : List String :=
  ["Создание структуры каталогов",
   "Построение базовой системы",
   "Настройка GRUB с кастомной темой",
   "Установка KDE Plasma с Wayland",
   "Установка графического установщика Calamares",
   "Установка дополнительного ПО",
   "Подготовка файлов для ISO",
   "Создание загрузочной структуры",
   "Создание ISO образа",
   "Завершение сборки"]

/-- The value `sizeof(steps) / sizeof(steps[0])`. -/
def total_steps : Nat := steps.length

/-- The entry `steps[i]`. -/
def step_name (i : Nat) : String := steps.getD i ""

/-- Function `print_progress` of `main.c`. -/
def print_progress (step total : Nat) (message : String) (w : World σ) : World σ :=
  w.emit (.progress step total message)

/-- The text of the failure report of the step loop. -/
def step_error_text (step : Nat) (name : String) : String :=
  COLOR_RED ++ "\nОшибка на шаге " ++ toString step ++ ": " ++ name ++ "\n" ++ COLOR_RESET

/-- What the step loop itself does, apart from what the stages do: the stage
calls it makes and the failure reports it prints. -/
inductive DriverEvent
  /-- Case `i` of the `switch` called its stage function, which returned
  `result`. -/
  | stage (i : Nat) (result : Int)
  /-- The loop printed the failure report for step number `step`. -/
  | step_error (step : Nat) (name : String)
  deriving DecidableEq, Repr

/-- A run of the driver: the world, and the record of the driver's own acts. -/
structure Run (σ : Type) where
  world : World σ
  log : List DriverEvent

/-- The `switch (i)` of the step loop; without a `default` case the result
stays `0` for any other `i`. -/
def run_stage (os : OS σ) (i : Nat) (config : BuildConfig) (w : World σ) : Int × World σ :=
  match i with
  | 0 => create_directory_structure os config w
  | 1 => build_base_system os config w
  | 2 => customize_grub os config w
  | 3 => install_kde_plasma os config w
  | 4 => install_calamares os config w
  | 5 => install_additional_software os config w
  | 6 => prepare_iso_files os config w
  | 7 => create_boot_structure os config w
  | 8 => create_iso_image os config w
  | 9 => cleanup_build os config w
  | _ => (0, w)

/-- The loop `for (int i = 0; i < total_steps; i++)` of `main`, with `stage`
for the `switch`: the first argument counts the iterations left
(`total - i`), the second is `i`.  The value returned is the variable
`result` after the loop. -/
def step_loop (stage : Nat → BuildConfig → World σ → Int × World σ)
    (config : BuildConfig) (total : Nat) : Nat → Nat → Run σ → Int × Run σ
  | 0, _, run => (0, run)
  | n + 1, i, run =>
    let w1 := print_progress (i + 1) total (step_name i) run.world
    let (step_result, w2) := stage i config w1
    let log2 := run.log ++ [.stage i step_result]
    if step_result ≠ 0 then
      (1, { world := printf (step_error_text (i + 1) (step_name i)) w2
            log := log2 ++ [.step_error (i + 1) (step_name i)] })
    else
      step_loop stage config total n (i + 1) { world := w2, log := log2 }

/-- The ten steps, from step one: the loop of `main` from `i = 0`. -/
def run_pipeline (stage : Nat → BuildConfig → World σ → Int × World σ)
    (config : BuildConfig) (w : World σ) : Int × Run σ :=
  step_loop stage config total_steps total_steps 0 { world := w, log := [] }

/-! ## The final report -/

/-- The `double` nearest to the integer `n` (ties to even), as an integer:
the conversion of `st.st_size` in `st.st_size / (1024.0 * 1024.0)`. -/
def to_double (n : Nat) : Nat :=
  if n < 2 ^ 53 then n
  else
    let e := Nat.log2 n - 52
    let q := n / 2 ^ e
    let r := n % 2 ^ e
    let half := 2 ^ (e - 1)
    let q1 := if half < r ∨ (r = half ∧ q % 2 = 1) then q + 1 else q
    q1 * 2 ^ e

/-- Hundredths of a megabyte printed by `"%.2f"` for a file of `n` bytes: the
quotient `to_double n / 2^20` is exact, and the decimal rendering rounds it
to the nearest hundredth, ties to even. -/
def size_hundredths (n : Nat) : Nat :=
  let m := to_double n * 100
  let q := m / 2 ^ 20
  let r := m % 2 ^ 20
  if 2 ^ 19 < r ∨ (r = 2 ^ 19 ∧ q % 2 = 1) then q + 1 else q

/-- The text `"%.2f"` prints for `st.st_size / (1024.0 * 1024.0)`. -/
def size_mb_text (n : Nat) : String :=
  let h := size_hundredths n
  toString (h / 100) ++ "." ++ toString (h % 100 / 10) ++ toString (h % 10)

/-- The block `if (result == 0) { ... }` at the end of `main`. -/
def success_report (os : OS σ) (config : BuildConfig) (w : World σ) : World σ :=
  let w1 := printf (COLOR_GREEN ++ "\n" ++ rule 43 ++ "\n") w
  let w2 := printf "Сборка Luna Linux успешно завершена!\n" w1
  let w3 := printf ("ISO файл: " ++ config.output_iso ++ "\n") w2
  let (st, w4) := call_stat os config.output_iso w3
  let w5 := match st with
    | some size => printf ("Размер: " ++ size_mb_text size ++ " MB\n") w4
    | none => w4
  let w6 := printf (rule 43 ++ "\n" ++ COLOR_RESET) w5
  let w7 := printf (COLOR_YELLOW ++ "\nДля записи на USB используйте:\n" ++ COLOR_RESET) w6
  let w8 := printf ("dd if=\"" ++ config.output_iso ++
    "\" of=/dev/sdX bs=4M status=progress && sync\n") w7
  printf (COLOR_YELLOW ++ "\nИли используйте Etcher/Rufus/Ventoy\n" ++ COLOR_RESET) w8

/-! ## Program entry -/

/-- Function `print_banner` of `main.c`. -/
def print_banner (w : World σ) : World σ :=
  let w1 := printf (COLOR_BLUE ++ "╔" ++ rule 52 ++ "╗\n") w
  let w2 := printf ("║                    " ++ COLOR_CYAN ++ "Luna Linux Builder" ++ COLOR_BLUE ++
    "              ║\n") w1
  let w3 := printf ("║           " ++ COLOR_YELLOW ++ "Сборка дистрибутива на языке C" ++
    COLOR_BLUE ++ "         ║\n") w2
  let w4 := printf ("╚" ++ rule 52 ++ "╝\n" ++ COLOR_RESET) w3
  printf "\n" w4

/-- The loop `while ((option = getopt(argc, argv, "vch")) != -1)` of `main`,
over the values `getopt` returns before `-1`.  The first component is the
exit code when the loop returns from `main`, `none` when it runs to its end. -/
def parse_options (argv0 : String) : List Char → BuildConfig → World σ →
    Option Int × BuildConfig × World σ
  | [], config, w => (none, config, w)
  | option :: rest, config, w =>
    if option = 'v' then
      parse_options argv0 rest { config with verbose := 1 } w
    else if option = 'c' then
      parse_options argv0 rest { config with clean_build := 1 } w
    else if option = 'h' then
      let w1 := printf ("Использование: " ++ argv0 ++ " [опции]\n") w
      let w2 := printf "  -v    Подробный вывод\n" w1
      let w3 := printf "  -c    Полная очистка перед сборкой\n" w2
      (some 0, config, printf "  -h    Эта справка\n" w3)
    else
      (some 1, config, w.emit (.stderr ("Неизвестная опция: " ++ String.singleton option ++ "\n")))

/-- The two lines `main` prints after the privilege check: the start of the
build, and the date and time as `ctime` renders them. -/
def print_start (os : OS σ) (w : World σ) : World σ :=
  let w3 := printf (COLOR_CYAN ++ "Начало сборки Luna Linux\n" ++ COLOR_RESET) w
  printf (COLOR_YELLOW ++ "Дата и время: " ++ os.ctime_now w3.sys ++ COLOR_RESET) w3

/-- Function `main` of `main.c`, with `stage` for the `switch` of the step
loop.  `home` is the value of `HOME`, `argv0` the program name, `options` the
values `getopt` returns for the command line. -/
def main_with (stage : Nat → BuildConfig → World σ → Int × World σ) (os : OS σ)
    (home argv0 : String) (options : List Char) (w : World σ) : Int × Run σ :=
  let g_config := init_config home
  match parse_options argv0 options g_config w with
  | (some code, _, w1) => (code, { world := w1, log := [] })
  | (none, config, w1) =>
    let w2 := print_banner w1
    if os.getuid w2.sys ≠ 0 then
      let w3 := printf (COLOR_RED ++ "Ошибка: программа должна запускаться с правами root\n" ++
        COLOR_RESET) w2
      (1, { world := printf ("Используйте: sudo " ++ argv0 ++ "\n") w3, log := [] })
    else
      let w4 := print_start os w2
      let (result, run) := run_pipeline stage config w4
      if result = 0 then
        (result, { run with world := success_report os config run.world })
      else
        (result, run)

/-- Function `main` of `main.c`. -/
def main (os : OS σ) (home argv0 : String) (options : List Char) (w : World σ) :
    Int × Run σ :=
  main_with (run_stage os) os home argv0 options w

/-! ## Path expansion (`config.c`) -/

/-- Function `config_expand_path` of `config.c`; `home` is the home directory
the function resolves (`HOME`, or the password database entry).  `malloc` and
`strdup` are taken to succeed.  The result is `none` when `sprintf` would
write past the `malloc`ed block of `strlen(home) + strlen(path)` bytes. -/
def config_expand_path (home path : String) : Option String :=
  if strstr path "~" = some 0 then
    let capacity := strlen home + strlen path
    let expanded := home ++ str_tail path
    if strlen expanded + 1 ≤ capacity then some expanded else none
  else
    some path

/-! ## Observations used in the statements -/

/-- The indices of the stages the driver called, in the order of the calls. -/
def invoked (log : List DriverEvent) : List Nat :=
  log.filterMap (fun e => match e with
    | .stage i _ => some i
    | .step_error _ _ => none)

/-- The failure reports the driver printed: step number and step name. -/
def reports (log : List DriverEvent) : List (Nat × String) :=
  log.filterMap (fun e => match e with
    | .stage _ _ => none
    | .step_error k name => some (k, name))

/-- Log entries of the stages `i, ..., i + m - 1`, each having returned `0`. -/
def ok_entries (i m : Nat) : List DriverEvent :=
  (List.range' i m).map (fun j => DriverEvent.stage j 0)

/-! ## A small outside world for concrete runs -/

/-- The effect of a command on the paths present, in the small world: a command
`rm -rf p` that exits with status `0` removes `p` and what lies under it;
nothing else is modelled. -/
def sim_system (status : String → Int) (cmd : String) (paths : List String) :
    Int × List String :=
  if status cmd = 0 ∧ "rm -rf ".data <+: cmd.data then
    (0, paths.filter (fun q => !((cmd.data.drop 7).isPrefixOf q.data)))
  else
    (status cmd, paths)

/-- A small outside world: the state is the list of the paths present, each
command exits with the status `status` gives it, `mkdir` fails with `EEXIST`
on a path that is present and succeeds otherwise. -/
def sim_os (status : String → Int) : OS (List String) where
  system := sim_system status
  mkdir := fun path _ paths =>
    if path ∈ paths then (some EEXIST, paths) else (none, paths ++ [path])
  fopen_w := fun path paths => (true, if path ∈ paths then paths else paths ++ [path])
  fputs := fun _ _ paths => (true, paths)
  fclose := fun _ paths => paths
  chmod := fun _ _ paths => paths
  popen_r := fun _ paths => (some "", paths)
  pclose := fun _ paths => paths
  unlink := fun path paths => paths.filter (fun q => q != path)
  stat_size := fun path paths => if path ∈ paths then some 0 else none
  getuid := fun _ => 0
  ctime_now := fun _ => "Thu Jan  1 00:00:00 1970\n"

/-- The empty world over the small outside world. -/
def sim_world (paths : List String) : World (List String) :=
  { sys := paths, out := [] }

/-! ## What is assumed of `mkdir` in the statements on re-runs -/

/-- What POSIX says of `mkdir`, for a reading `present s p` of "path `p` is
there in state `s`": on a path that is there it fails with `EEXIST` and
changes nothing; after a success, and after a failure with `EEXIST`, the path
is there; a path that is there stays there. -/
structure MkdirLaws (os : OS σ) (present : σ → String → Bool) : Prop where
  on_present : ∀ s p mode, present s p = true → os.mkdir p mode s = (some EEXIST, s)
  after_success : ∀ s p mode, (os.mkdir p mode s).1 = none →
    present (os.mkdir p mode s).2 p = true
  after_eexist : ∀ s p mode, (os.mkdir p mode s).1 = some EEXIST →
    present (os.mkdir p mode s).2 p = true
  keeps : ∀ s p mode q, present s q = true → present (os.mkdir p mode s).2 q = true

/-- A path is there, in the small world. -/
def sim_present (paths : List String) (p : String) : Bool :=
  decide (p ∈ paths)

/-! ## Further observations and examples -/

/-- The commands handed to `system`, with the status each returned, in the
order of the calls. -/
def system_calls (events : List Event) : List (String × Int) :=
  events.filterMap (fun e => match e with
    | .system cmd status => some (cmd, status)
    | _ => none)

/-- The first line of the text a command wrote, without its newline. -/
def first_line (output : String) : String :=
  ⟨output.data.takeWhile (fun x => x != '\n')⟩

/-- The shape the four script stages share (the source writes it out four
times): banner, `write_file` of the script, then the three commands, of
which only the last decides the result. -/
def script_stage (os : OS σ) (banner script_path content cp_cmd chmod_cmd chroot_cmd : String)
    (verbose : Int) (w : World σ) : Int × World σ :=
  let w1 := printf banner w
  let (written, w2) := write_file os script_path content w1
  if written ≠ 0 then (1, w2)
  else
    let w3 := (execute_command os cp_cmd 0 w2).2
    let w4 := (execute_command os chmod_cmd 0 w3).2
    execute_command os chroot_cmd verbose w4

/-- The small outside world in which every `popen` command writes `found`. -/
def sim_os_found (status : String → Int) (found : String) : OS (List String) :=
  { sim_os status with popen_r := fun _ paths => (some found, paths) }

/-- The small outside world run by a user whose id is `uid`. -/
def sim_os_user (status : String → Int) (uid : Nat) : OS (List String) :=
  { sim_os status with getuid := fun _ => uid }

/-- The small outside world in which no file can be opened for writing. -/
def sim_os_no_write (status : String → Int) : OS (List String) :=
  { sim_os status with fopen_w := fun _ paths => (false, paths) }

/-- The two user ids of a process: `getuid` returns the real one, `geteuid`
would return the effective one. -/
structure UserIds where
  real : Nat
  effective : Nat
  deriving DecidableEq, Repr

/-- An outside world whose state also carries the user ids of the process;
`getuid` reads the real id, every other call is that of `os`. -/
def with_ids (os : OS σ) : OS (UserIds × σ) where
  system := fun cmd s => ((os.system cmd s.2).1, (s.1, (os.system cmd s.2).2))
  mkdir := fun path mode s => ((os.mkdir path mode s.2).1, (s.1, (os.mkdir path mode s.2).2))
  fopen_w := fun path s => ((os.fopen_w path s.2).1, (s.1, (os.fopen_w path s.2).2))
  fputs := fun path content s =>
    ((os.fputs path content s.2).1, (s.1, (os.fputs path content s.2).2))
  fclose := fun path s => (s.1, os.fclose path s.2)
  chmod := fun path mode s => (s.1, os.chmod path mode s.2)
  popen_r := fun cmd s => ((os.popen_r cmd s.2).1, (s.1, (os.popen_r cmd s.2).2))
  pclose := fun cmd s => (s.1, os.pclose cmd s.2)
  unlink := fun path s => (s.1, os.unlink path s.2)
  stat_size := fun path s => os.stat_size path s.2
  getuid := fun s => s.1.real
  ctime_now := fun s => os.ctime_now s.2

/-! ## The configuration module (`config.c`) -/

namespace ConfigModule

/-- The `BuildConfig` struct of `config.h`; each package array with its count
is a list. -/
structure BuildConfig where
  distro_name : String
  distro_short_name : String
  version : String
  codename : String
  base_distro : String
  base_version : String
  architecture : String
  work_dir : String
  chroot_dir : String
  iso_dir : String
  output_iso : String
  verbose : Bool
  clean_build : Bool
  keep_chroot : Bool
  base_packages : List String
  desktop_packages : List String
  additional_packages : List String
  deriving DecidableEq, Repr

/-- Function `config_init` of `config.c`; `home` is the home directory the
function resolves (`HOME`, or the password database entry). -/
def config_init (home : String) : BuildConfig :=
  let work_dir := snprintf 256 (home ++ "/luna-build")
  { distro_name := "Luna Linux"
    distro_short_name := "luna"
    version := "1.0"
    codename := "stellar"
    base_distro := "ubuntu"
    base_version := "22.04"
    architecture := "amd64"
    work_dir := work_dir
    chroot_dir := snprintf 256 (work_dir ++ "/chroot")
    iso_dir := snprintf 256 (work_dir ++ "/iso")
    output_iso := snprintf 256 (home ++ "/Luna-Linux-1.0-amd64.iso")
    verbose := false
    clean_build := true
    keep_chroot := false
    base_packages := ["systemd", "dbus", "locales", "sudo", "network-manager", "grub2",
      "linux-image-generic", "initramfs-tools"]
    desktop_packages := ["kde-plasma-desktop", "plasma-workspace-wayland", "kwin-wayland",
      "sddm", "dolphin", "konsole", "firefox", "calamares", "plymouth-themes", "grub2-themes"]
    additional_packages := ["libreoffice", "vlc", "gimp", "neofetch", "git"] }

end ConfigModule

/-- Whether every character of `s` is a single byte (ASCII text): bytes and
characters of such a text coincide. -/
def single_byte (s : String) : Bool :=
  s.data.all (fun c => decide (c.toNat < 128))

/-- A home directory of 240 bytes. -/
def long_home : String :=
  ⟨'/' :: List.replicate 239 'h'⟩

/-- A home directory of 235 bytes. -/
def mid_home : String :=
  ⟨'/' :: List.replicate 234 'h'⟩

/-! ## The searches of stage 7, piece by piece -/

/-- The kernel search command of `prepare_iso_files`. -/
def find_kernel_cmd (config : BuildConfig) : String :=
  snprintf 512 ("find " ++ config.chroot ++ "/boot -name 'vmlinuz-*' -type f | head -1")

/-- The initrd search command of `prepare_iso_files`. -/
def find_initrd_cmd (config : BuildConfig) : String :=
  snprintf 512 ("find " ++ config.chroot ++ "/boot -name 'initrd.img-*' -type f | head -1")

/-- The command that copies the kernel found at `path`. -/
def cp_kernel_cmd (config : BuildConfig) (path : String) : String :=
  snprintf 512 ("cp " ++ path ++ " " ++ config.imagedir ++ "/vmlinuz")

/-- The command that copies the initrd found at `path`. -/
def cp_initrd_cmd (config : BuildConfig) (path : String) : String :=
  snprintf 512 ("cp " ++ path ++ " " ++ config.imagedir ++ "/initrd")

/-- The path `prepare_iso_files` takes from the text a search wrote: what
`fgets` reads into its buffer of 512 bytes, cut at the newline; `none` when
`fgets` returns `NULL`. -/
def selected_path (output : String) : Option String :=
  (fgets 512 output).map cut_at_newline

/-- The part of `prepare_iso_files` from the initrd search on, run once the
kernel has been copied. -/
def prepare_initrd (os : OS σ) (config : BuildConfig) (w4 : World σ) : Int × World σ :=
  let find_cmd2 := snprintf 512
    ("find " ++ config.chroot ++ "/boot -name 'initrd.img-*' -type f | head -1")
  let (fp2, w5) := call_popen os find_cmd2 w4
  match fp2 with
  | none => (1, w5)
  | some stream2 =>
    match fgets 512 stream2 with
    | none => (1, call_pclose os find_cmd2 w5)
    | some line2 =>
      let w6 := call_pclose os find_cmd2 w5
      let initrd_path := cut_at_newline line2
      let (copied2, w7) := execute_command os
        (snprintf 512 ("cp " ++ initrd_path ++ " " ++ config.imagedir ++ "/initrd"))
        config.verbose w6
      if copied2 ≠ 0 then (1, w7)
      else
        let w8 := printf (COLOR_YELLOW ++ "Создание squashfs образа...\n" ++ COLOR_RESET) w7
        execute_command os
          (snprintf 512 ("mksquashfs " ++ config.chroot ++ " " ++ config.imagedir ++
            "/filesystem.squashfs -comp xz -b 1M -noappend"))
          config.verbose w8

/-- A directory name of `n` bytes. -/
def dir_name (c : Char) (n : Nat) : String :=
  ⟨List.replicate n c⟩

/-- A kernel path of 552 bytes, three directories deep under the boot
directory; no component has more than 200 bytes. -/
def long_kernel_path : String :=
  "/root/luna-linux-build/chroot/boot/" ++ dir_name 'a' 200 ++ "/" ++ dir_name 'b' 200 ++ "/" ++
    dir_name 'c' 100 ++ "/vmlinuz-5.15.0"

/-- A kernel path of 505 bytes, of the same shape. -/
def mid_kernel_path : String :=
  "/root/luna-linux-build/chroot/boot/" ++ dir_name 'a' 200 ++ "/" ++ dir_name 'b' 200 ++ "/" ++
    dir_name 'c' 53 ++ "/vmlinuz-5.15.0"

/-! ## Facts about byte counts -/

theorem char_size_single (c : Char) (h : c.toNat < 128) : char_size c = 1 := by
  unfold char_size
  rw [if_pos h]

theorem byte_length_append (a b : List Char) :
    byte_length (a ++ b) = byte_length a + byte_length b := by
  induction a with
  | nil => simp [byte_length]
  | cons c cs ih => simp [byte_length, ih, Nat.add_assoc]

theorem byte_length_single (l : List Char) (h : ∀ c ∈ l, c.toNat < 128) :
    byte_length l = l.length := by
  induction l with
  | nil => rfl
  | cons c cs ih =>
    rw [byte_length, char_size_single c (h c (List.mem_cons_self _ _)),
      ih (fun x hx => h x (List.mem_cons_of_mem _ hx)), List.length_cons]
    omega

theorem take_bytes_single (l : List Char) (h : ∀ c ∈ l, c.toNat < 128) :
    ∀ n, take_bytes n l = l.take n := by
  induction l with
  | nil => intro n; simp [take_bytes]
  | cons c cs ih =>
    intro n
    have hc := char_size_single c (h c (List.mem_cons_self _ _))
    have ih2 := ih (fun x hx => h x (List.mem_cons_of_mem _ hx))
    cases n with
    | zero => simp [take_bytes, hc]
    | succ m => simp [take_bytes, hc, ih2]

theorem take_bytes_fits (l : List Char) :
    ∀ n, byte_length l ≤ n → take_bytes n l = l := by
  induction l with
  | nil => intro n _; simp [take_bytes]
  | cons c cs ih =>
    intro n hn
    simp only [byte_length] at hn
    have h1 : char_size c ≤ n := by omega
    simp only [take_bytes, if_pos h1]
    rw [ih (n - char_size c) (by omega)]

theorem take_bytes_head (l : List Char) : ∀ n, take_bytes n l <+: l := by
  induction l with
  | nil => intro n; simp [take_bytes]
  | cons c cs ih =>
    intro n
    simp only [take_bytes]
    split_ifs
    · exact (List.prefix_cons_inj c).mpr (ih _)
    · exact List.nil_prefix

theorem byte_length_take_bytes (l : List Char) :
    ∀ n, byte_length (take_bytes n l) ≤ n := by
  induction l with
  | nil => intro n; simp [take_bytes, byte_length]
  | cons c cs ih =>
    intro n
    simp only [take_bytes]
    split_ifs with h
    · have := ih (n - char_size c)
      simp only [byte_length]
      omega
    · simp [byte_length]

theorem takeWhile_take_bytes (p : Char → Bool) (l : List Char) :
    ∀ n, (take_bytes n l).takeWhile p = take_bytes n (l.takeWhile p) := by
  induction l with
  | nil => intro n; simp [take_bytes]
  | cons c cs ih =>
    intro n
    by_cases hc : char_size c ≤ n
    · by_cases hp : p c = true
      · simp [take_bytes, hc, List.takeWhile, hp, ih]
      · simp [take_bytes, hc, List.takeWhile, hp]
    · by_cases hp : p c = true
      · simp [take_bytes, hc, List.takeWhile, hp]
      · simp [take_bytes, hc, List.takeWhile, hp]

theorem strlen_append (a b : String) : strlen (a ++ b) = strlen a + strlen b := by
  simp [strlen, String.data_append, byte_length_append]

theorem snprintf_fits (size : Nat) (text : String) (h : strlen text ≤ size - 1) :
    snprintf size text = text := by
  apply String.ext
  simp only [snprintf]
  exact take_bytes_fits _ _ h

/-! ## Facts about the command runner -/

theorem events_since_append (w1 w2 : World σ) (es : List Event)
    (h : w2.out = w1.out ++ es) : events_since w1 w2 = es := by
  simp [events_since, h]

theorem execute_command_fst (os : OS σ) (cmd : String) (v : Int) (w : World σ) :
    (execute_command os cmd v w).1 = if (os.system cmd w.sys).1 = 0 then 0 else 1 := by
  unfold execute_command call_system printf World.emit
  by_cases hv : v = 0 <;> by_cases hs : (os.system cmd w.sys).1 = 0 <;> simp [hv, hs]

theorem execute_command_sys (os : OS σ) (cmd : String) (v : Int) (w : World σ) :
    (execute_command os cmd v w).2.sys = (os.system cmd w.sys).2 := by
  unfold execute_command call_system printf World.emit
  by_cases hv : v = 0 <;> by_cases hs : (os.system cmd w.sys).1 = 0 <;> simp [hv, hs]

theorem execute_command_out (os : OS σ) (cmd : String) (v : Int) (w : World σ) :
    (execute_command os cmd v w).2.out =
      w.out ++ ((if v ≠ 0 then [Event.stdout (echo_line cmd)] else []) ++
        [Event.system cmd (os.system cmd w.sys).1] ++
        (if (os.system cmd w.sys).1 ≠ 0 ∧ v = 0 then [Event.stdout (error_line cmd)] else [])) := by
  unfold execute_command call_system printf World.emit
  by_cases hv : v = 0 <;> by_cases hs : (os.system cmd w.sys).1 = 0 <;> simp [hv, hs]

/-- C5: `execute_command` returns `0` exactly when the status of the shell
invocation is `0` and `1` for every other status (so also for `-1`, the status
of a failed spawn); the invocation it makes is `system(cmd)` on the current
state, and the result is the same for every value of the verbosity flag. -/
theorem execute_command_status (os : OS σ) (cmd : String) (show_output : Int)
    (w : World σ) :
    ((execute_command os cmd show_output w).1 = 0 ↔ (os.system cmd w.sys).1 = 0) ∧
    (execute_command os cmd show_output w).1 =
      (if (os.system cmd w.sys).1 = 0 then 0 else 1) ∧
    Event.system cmd (os.system cmd w.sys).1 ∈
      events_since w (execute_command os cmd show_output w).2 ∧
    (∀ st, Event.system cmd st ∈ events_since w (execute_command os cmd show_output w).2 →
      st = (os.system cmd w.sys).1) ∧
    (∀ v, (execute_command os cmd v w).1 = (execute_command os cmd show_output w).1) := by
  have hout := events_since_append w _ _ (execute_command_out os cmd show_output w)
  refine ⟨?_, execute_command_fst os cmd show_output w, ?_, ?_, ?_⟩
  · rw [execute_command_fst]
    by_cases hs : (os.system cmd w.sys).1 = 0 <;> simp [hs]
  · rw [hout]; simp
  · intro st hst
    rw [hout] at hst
    simp only [List.mem_append, List.mem_singleton] at hst
    rcases hst with (hst | hst) | hst
    · split at hst <;> simp at hst
    · injection hst
    · split at hst <;> simp at hst
  · intro v
    rw [execute_command_fst, execute_command_fst]

/-- C5 at a concrete run: the shell cannot be started and `system` returns `-1`;
the result is `1`, with the flag set or not. -/
theorem execute_command_status_witness :
    (execute_command (sim_os (fun _ => -1)) "which xorriso" 0 (sim_world [])).1 = 1 ∧
    (execute_command (sim_os (fun _ => -1)) "which xorriso" 1 (sim_world [])).1 = 1 :=
  ⟨(execute_command_status (sim_os (fun _ => -1)) "which xorriso" 0 (sim_world [])).2.1.trans
      (by decide),
    (execute_command_status (sim_os (fun _ => -1)) "which xorriso" 1 (sim_world [])).2.1.trans
      (by decide)⟩

theorem echo_line_text (cmd : String) :
    echo_line cmd = "\x1b[0;36mВыполнение: " ++ cmd ++ "\n\x1b[0m" := by
  apply String.ext
  simp only [echo_line, COLOR_CYAN, COLOR_RESET, String.data_append, List.append_assoc]
  rfl

theorem error_line_text (cmd : String) :
    error_line cmd = "\x1b[0;31mОшибка выполнения команды: " ++ cmd ++ "\n\x1b[0m" := by
  apply String.ext
  simp only [error_line, COLOR_RED, COLOR_RESET, String.data_append, List.append_assoc]
  rfl

/-- C6, as the code has it: the events of one `execute_command` are the echo of
the command (cyan, `Выполнение: ` and the command) when the flag is set, the
`system` call, and then the error line (red, `Ошибка выполнения команды: ` and
the command) only when the status is non-zero and the flag is `0`.  With the
flag set nothing is printed after a command that failed. -/
theorem execute_command_events (os : OS σ) (cmd : String) (show_output : Int)
    (w : World σ) :
    events_since w (execute_command os cmd show_output w).2 =
      (if show_output ≠ 0
        then [Event.stdout ("\x1b[0;36mВыполнение: " ++ cmd ++ "\n\x1b[0m")] else []) ++
        [Event.system cmd (os.system cmd w.sys).1] ++
        (if (os.system cmd w.sys).1 ≠ 0 ∧ show_output = 0
          then [Event.stdout ("\x1b[0;31mОшибка выполнения команды: " ++ cmd ++ "\n\x1b[0m")]
          else []) := by
  rw [← echo_line_text, ← error_line_text]
  exact events_since_append w _ _ (execute_command_out os cmd show_output w)

/-- C6 fails for the verbose flag: the command `false` exits with status `1`,
`execute_command` returns `1`, and with `show_output = 1` the only line
printed is the echo that precedes the command; no error line follows.  With
`show_output = 0` the error line is printed, and names the command. -/
theorem execute_command_verbose_no_error_line :
    (execute_command (sim_os (fun _ => 1)) "false" 1 (sim_world [])).1 = 1 ∧
    (execute_command (sim_os (fun _ => 1)) "false" 1 (sim_world [])).2.out =
      [Event.stdout "\x1b[0;36mВыполнение: false\n\x1b[0m", Event.system "false" 1] ∧
    Event.stdout "\x1b[0;31mОшибка выполнения команды: false\n\x1b[0m" ∉
      (execute_command (sim_os (fun _ => 1)) "false" 1 (sim_world [])).2.out ∧
    (execute_command (sim_os (fun _ => 1)) "false" 0 (sim_world [])).2.out =
      [Event.system "false" 1,
       Event.stdout "\x1b[0;31mОшибка выполнения команды: false\n\x1b[0m"] := by
  decide

/-! ## Facts about the step loop -/

theorem ok_entries_succ (i m : Nat) :
    ok_entries i (m + 1) = DriverEvent.stage i 0 :: ok_entries (i + 1) m := by
  simp [ok_entries, List.range'_succ]

theorem mem_ok_entries {i m : Nat} {e : DriverEvent} :
    e ∈ ok_entries i m ↔ ∃ j, i ≤ j ∧ j < i + m ∧ e = DriverEvent.stage j 0 := by
  simp only [ok_entries, List.mem_map, List.mem_range'_1]
  constructor
  · rintro ⟨j, ⟨h1, h2⟩, rfl⟩; exact ⟨j, h1, h2, rfl⟩
  · rintro ⟨j, h1, h2, rfl⟩; exact ⟨j, ⟨h1, h2⟩, rfl⟩

theorem reports_ok_entries (i m : Nat) : reports (ok_entries i m) = [] := by
  induction m generalizing i with
  | zero => simp [ok_entries, reports]
  | succ m ih =>
    have h := ih (i + 1)
    rw [ok_entries_succ]
    simp only [reports] at h ⊢
    simp [h]

/-- The shape of a run of the step loop.  Either every remaining stage was
called and returned `0`, or the stages up to some `i + m` returned `0`, stage
`i + m` returned `r ≠ 0`, and the loop ended there with one failure report,
printed last. -/
theorem step_loop_shape (stage : Nat → BuildConfig → World σ → Int × World σ)
    (config : BuildConfig) (total : Nat) :
    ∀ (n i : Nat) (run : Run σ),
      ((step_loop stage config total n i run).1 = 0 ∧
        (step_loop stage config total n i run).2.log = run.log ++ ok_entries i n ∧
        (∀ j, j < n → ∃ w, (stage (i + j) config w).1 = 0)) ∨
      (∃ m r, m < n ∧ r ≠ 0 ∧
        (step_loop stage config total n i run).1 = 1 ∧
        (step_loop stage config total n i run).2.log =
          run.log ++ ok_entries i m ++
            [DriverEvent.stage (i + m) r,
             DriverEvent.step_error (i + m + 1) (step_name (i + m))] ∧
        (∀ j, j < m → ∃ w, (stage (i + j) config w).1 = 0) ∧
        (∃ w, (stage (i + m) config w).1 = r) ∧
        (step_loop stage config total n i run).2.world.out.getLast? =
          some (Event.stdout (step_error_text (i + m + 1) (step_name (i + m))))) := by
  intro n
  induction n with
  | zero =>
    intro i run
    left
    simp [step_loop, ok_entries]
  | succ n ih =>
    intro i run
    by_cases hr : (stage i config (print_progress (i + 1) total (step_name i) run.world)).1 = 0
    · have hstep : step_loop stage config total (n + 1) i run =
          step_loop stage config total n (i + 1)
            { world := (stage i config
                (print_progress (i + 1) total (step_name i) run.world)).2,
              log := run.log ++ [DriverEvent.stage i 0] } := by
        simp [step_loop, hr]
      rw [hstep]
      rcases ih (i + 1)
          { world := (stage i config
              (print_progress (i + 1) total (step_name i) run.world)).2,
            log := run.log ++ [DriverEvent.stage i 0] } with h | ⟨m, r, hm, hne, h1, h2, h3, h4, h5⟩
      · left
        obtain ⟨h1, h2, h3⟩ := h
        refine ⟨h1, ?_, ?_⟩
        · rw [h2, ok_entries_succ]; simp
        · intro j hj
          cases j with
          | zero => exact ⟨_, hr⟩
          | succ j =>
            obtain ⟨w, hw⟩ := h3 j (by omega)
            exact ⟨w, by rw [← hw]; congr 2; omega⟩
      · right
        refine ⟨m + 1, r, by omega, hne, h1, ?_, ?_, ?_, ?_⟩
        · rw [h2, ok_entries_succ]
          have e1 : i + 1 + m = i + (m + 1) := by omega
          simp [e1]
        · intro j hj
          cases j with
          | zero => exact ⟨_, hr⟩
          | succ j =>
            obtain ⟨w, hw⟩ := h3 j (by omega)
            exact ⟨w, by rw [← hw]; congr 2; omega⟩
        · obtain ⟨w, hw⟩ := h4
          exact ⟨w, by rw [← hw]; congr 2; omega⟩
        · have e1 : i + 1 + m = i + (m + 1) := by omega
          rw [h5, e1]
    · right
      refine ⟨0, (stage i config (print_progress (i + 1) total (step_name i) run.world)).1,
        by omega, hr, ?_, ?_, ?_, ⟨_, rfl⟩, ?_⟩
      · simp [step_loop, hr]
      · simp [step_loop, hr, ok_entries]
      · intro j hj; omega
      · simp [step_loop, hr, printf, World.emit]

theorem run_pipeline_shape (stage : Nat → BuildConfig → World σ → Int × World σ)
    (config : BuildConfig) (w : World σ) :
    ((run_pipeline stage config w).1 = 0 ∧
      (run_pipeline stage config w).2.log = ok_entries 0 10 ∧
      (∀ j, j < 10 → ∃ w1, (stage j config w1).1 = 0)) ∨
    (∃ m r, m < 10 ∧ r ≠ 0 ∧
      (run_pipeline stage config w).1 = 1 ∧
      (run_pipeline stage config w).2.log =
        ok_entries 0 m ++
          [DriverEvent.stage m r, DriverEvent.step_error (m + 1) (step_name m)] ∧
      (∀ j, j < m → ∃ w1, (stage j config w1).1 = 0) ∧
      (∃ w1, (stage m config w1).1 = r) ∧
      (run_pipeline stage config w).2.world.out.getLast? =
        some (Event.stdout (step_error_text (m + 1) (step_name m)))) := by
  have h := step_loop_shape stage config total_steps total_steps 0 { world := w, log := [] }
  have ht : total_steps = 10 := rfl
  simp only [ht, Nat.zero_add, List.nil_append] at h
  exact h

theorem mem_fail_log {m : Nat} {r : Int} {name : String} {j : Nat} {r1 : Int}
    (h : DriverEvent.stage j r1 ∈
      ok_entries 0 m ++ [DriverEvent.stage m r, DriverEvent.step_error (m + 1) name]) :
    (j < m ∧ r1 = 0) ∨ (j = m ∧ r1 = r) := by
  simp only [List.mem_append, mem_ok_entries, List.mem_cons, List.mem_singleton] at h
  rcases h with ⟨i, _, hi, he⟩ | he | he | he
  · injection he with h1 h2
    left; exact ⟨by omega, h2⟩
  · injection he with h1 h2
    right; exact ⟨h1, h2⟩
  · cases he
  · simp at he

theorem reports_fail_log (m : Nat) (r : Int) (k : Nat) (name : String) :
    reports (ok_entries 0 m ++ [DriverEvent.stage m r, DriverEvent.step_error k name]) =
      [(k, name)] := by
  have h : reports (ok_entries 0 m ++ [DriverEvent.stage m r, DriverEvent.step_error k name]) =
      reports (ok_entries 0 m) ++ [(k, name)] := by
    simp [reports, List.filterMap_append]
  rw [h, reports_ok_entries]; rfl

theorem step_name_entry (k : Nat) (h : k < 10) : steps.get? k = some (step_name k) := by
  have hl : k < steps.length := h
  simp [step_name, List.getD, List.getElem?_eq_getElem hl]

theorem step_error_text_eq (step : Nat) (name : String) :
    step_error_text step name =
      "\x1b[0;31m\nОшибка на шаге " ++ toString step ++ ": " ++ name ++ "\n\x1b[0m" := by
  apply String.ext
  simp only [step_error_text, COLOR_RED, COLOR_RESET, String.data_append, List.append_assoc]
  rfl

theorem step_loop_pure (stage : Nat → BuildConfig → World σ → Int × World σ)
    (config : BuildConfig) (total : Nat) (a : Nat → Int)
    (ha : ∀ i w1, stage i config w1 = (a i, w1)) :
    ∀ (n i : Nat) (run : Run σ),
      ((∀ j, j < n → a (i + j) = 0) →
        (step_loop stage config total n i run).2.world.out =
          run.world.out ++
            (List.range' i n).map (fun j => Event.progress (j + 1) total (step_name j))) ∧
      (∀ m, m < n → a (i + m) ≠ 0 → (∀ j, j < m → a (i + j) = 0) →
        (step_loop stage config total n i run).2.world.out =
          run.world.out ++
            (List.range' i (m + 1)).map
              (fun j => Event.progress (j + 1) total (step_name j)) ++
            [Event.stdout (step_error_text (i + m + 1) (step_name (i + m)))]) := by
  intro n
  induction n with
  | zero =>
    intro i run
    exact ⟨fun _ => by simp [step_loop], fun m hm => absurd hm (Nat.not_lt_zero m)⟩
  | succ n ih =>
    intro i run
    by_cases h0 : a i = 0
    · have hstep : step_loop stage config total (n + 1) i run =
          step_loop stage config total n (i + 1)
            { world := print_progress (i + 1) total (step_name i) run.world,
              log := run.log ++ [DriverEvent.stage i 0] } := by
        simp [step_loop, ha, h0]
      obtain ⟨ih1, ih2⟩ := ih (i + 1)
        { world := print_progress (i + 1) total (step_name i) run.world,
          log := run.log ++ [DriverEvent.stage i 0] }
      rw [hstep]
      constructor
      · intro hall
        rw [ih1 (fun j hj => by rw [Nat.add_assoc, Nat.add_comm 1 j]; exact hall (j + 1) (by omega))]
        simp [print_progress, World.emit, List.range'_succ]
      · intro m hm hne hlt
        cases m with
        | zero => exact absurd h0 hne
        | succ m =>
          have e1 : i + 1 + m = i + (m + 1) := by omega
          rw [ih2 m (by omega) (by rw [e1]; exact hne)
            (fun j hj => by rw [Nat.add_assoc, Nat.add_comm 1 j]; exact hlt (j + 1) (by omega))]
          rw [e1]
          simp [print_progress, World.emit, List.range'_succ]
    · constructor
      · intro hall
        exact absurd (hall 0 (by omega)) h0
      · intro m hm hne hlt
        cases m with
        | zero =>
          simp [step_loop, ha, h0, printf, print_progress, World.emit]
        | succ m => exact absurd (hlt 0 (by omega)) h0

/-- C4: when some stage called by the step loop returns non-zero, the loop
prints one failure report, last of all: the red text `Ошибка на шаге`, the
number `k + 1` of that stage, the first to fail, a colon and entry `k` of the
table `steps`.  When every stage called returns `0` there is no failure
report.  The same for results fixed in advance: with `a i` the result of
stage `i`, the report names the least `k` with `a k ≠ 0`; and when the stages
print nothing themselves, all that the loop prints is the progress line of
each step it starts, followed on a failure by that one report. -/
theorem failure_report (stage : Nat → BuildConfig → World σ → Int × World σ)
    (config : BuildConfig) (w : World σ) :
    ((∃ k r, DriverEvent.stage k r ∈ (run_pipeline stage config w).2.log ∧ r ≠ 0) →
      ∃ k r, k < 10 ∧ r ≠ 0 ∧
        DriverEvent.stage k r ∈ (run_pipeline stage config w).2.log ∧
        (∀ j r1, DriverEvent.stage j r1 ∈ (run_pipeline stage config w).2.log →
          j ≠ k → j < k ∧ r1 = 0) ∧
        reports (run_pipeline stage config w).2.log = [(k + 1, step_name k)] ∧
        steps.get? k = some (step_name k) ∧
        (run_pipeline stage config w).2.world.out.getLast? =
          some (Event.stdout
            ("\x1b[0;31m\nОшибка на шаге " ++ toString (k + 1) ++ ": " ++ step_name k ++
              "\n\x1b[0m"))) ∧
    ((∀ k r, DriverEvent.stage k r ∈ (run_pipeline stage config w).2.log → r = 0) →
      reports (run_pipeline stage config w).2.log = []) ∧
    (∀ a : Nat → Int, (∀ i w1, (stage i config w1).1 = a i) →
      ((∃ i, i < 10 ∧ a i ≠ 0) →
        ∃ k, k < 10 ∧ a k ≠ 0 ∧ (∀ j, j < k → a j = 0) ∧
          reports (run_pipeline stage config w).2.log = [(k + 1, step_name k)] ∧
          steps.get? k = some (step_name k) ∧
          (run_pipeline stage config w).2.world.out.getLast? =
            some (Event.stdout
              ("\x1b[0;31m\nОшибка на шаге " ++ toString (k + 1) ++ ": " ++ step_name k ++
                "\n\x1b[0m"))) ∧
      ((∀ i, i < 10 → a i = 0) → reports (run_pipeline stage config w).2.log = [])) ∧
    (∀ a : Nat → Int, (∀ i w1, stage i config w1 = (a i, w1)) →
      (∀ k, k < 10 → a k ≠ 0 → (∀ j, j < k → a j = 0) →
        (run_pipeline stage config w).2.world.out =
          w.out ++
            (List.range (k + 1)).map (fun j => Event.progress (j + 1) 10 (step_name j)) ++
            [Event.stdout
              ("\x1b[0;31m\nОшибка на шаге " ++ toString (k + 1) ++ ": " ++ step_name k ++
                "\n\x1b[0m")]) ∧
      ((∀ i, i < 10 → a i = 0) →
        (run_pipeline stage config w).2.world.out =
          w.out ++
            (List.range 10).map (fun j => Event.progress (j + 1) 10 (step_name j)))) := by
  have hpure : ∀ a : Nat → Int, (∀ i w1, stage i config w1 = (a i, w1)) →
      (∀ k, k < 10 → a k ≠ 0 → (∀ j, j < k → a j = 0) →
        (run_pipeline stage config w).2.world.out =
          w.out ++
            (List.range (k + 1)).map (fun j => Event.progress (j + 1) 10 (step_name j)) ++
            [Event.stdout
              ("\x1b[0;31m\nОшибка на шаге " ++ toString (k + 1) ++ ": " ++ step_name k ++
                "\n\x1b[0m")]) ∧
      ((∀ i, i < 10 → a i = 0) →
        (run_pipeline stage config w).2.world.out =
          w.out ++
            (List.range 10).map (fun j => Event.progress (j + 1) 10 (step_name j))) := by
    intro a ha
    obtain ⟨p1, p2⟩ := step_loop_pure stage config total_steps a ha total_steps 0
      { world := w, log := [] }
    have ht : total_steps = 10 := rfl
    simp only [ht, Nat.zero_add] at p1 p2
    constructor
    · intro k hk hne hlt
      rw [← step_error_text_eq, List.range_eq_range']
      exact p2 k hk hne hlt
    · intro hall
      rw [List.range_eq_range']
      exact p1 hall
  rcases run_pipeline_shape stage config w with
    ⟨_, hlog, hall⟩ | ⟨m, r0, hm, hr0, _, hlog, hpre, hres, hlast⟩
  · rw [hlog]
    refine ⟨?_, fun _ => reports_ok_entries 0 10, ?_, hpure⟩
    · rintro ⟨k, r, hk, hr⟩
      obtain ⟨i, _, _, he⟩ := mem_ok_entries.mp hk
      injection he with _ h2
      exact absurd h2 hr
    · intro a ha
      refine ⟨?_, fun _ => reports_ok_entries 0 10⟩
      rintro ⟨i, hi, hai⟩
      obtain ⟨w1, hw1⟩ := hall i hi
      rw [ha] at hw1
      exact absurd hw1 hai
  · rw [step_error_text_eq] at hlast
    rw [hlog]
    refine ⟨?_, ?_, ?_, hpure⟩
    · intro _
      refine ⟨m, r0, hm, hr0, by simp, ?_, reports_fail_log _ _ _ _, step_name_entry m hm, hlast⟩
      intro j r1 hj hjm
      rcases mem_fail_log hj with ⟨h1, h2⟩ | ⟨h1, _⟩
      · exact ⟨h1, h2⟩
      · exact absurd h1 hjm
    · intro hall
      exact absurd (hall m r0 (by simp)) hr0
    · intro a ha
      obtain ⟨w1, hw1⟩ := hres
      rw [ha] at hw1
      constructor
      · intro _
        refine ⟨m, hm, by rw [hw1]; exact hr0, ?_, reports_fail_log _ _ _ _,
          step_name_entry m hm, hlast⟩
        intro j hj
        obtain ⟨w2, hw2⟩ := hpre j hj
        rw [ha] at hw2
        exact hw2
      · intro hall
        exact absurd (hw1 ▸ hall m hm) hr0

/-- C4 at a concrete run: stages 1 and 2 return `0`, stage 3 returns `5`; the
one report names step 3 and its entry of the table, and it is the last thing
printed, after the progress lines of steps 1 to 3. -/
theorem failure_report_witness :
    reports (run_pipeline (fun i _ w => (if i = 2 then 5 else 0, w)) (init_config "/root")
      (sim_world [])).2.log = [(3, "Настройка GRUB с кастомной темой")] ∧
    (run_pipeline (fun i _ w => (if i = 2 then 5 else 0, w)) (init_config "/root")
      (sim_world [])).2.world.out =
      [Event.progress 1 10 "Создание структуры каталогов",
       Event.progress 2 10 "Построение базовой системы",
       Event.progress 3 10 "Настройка GRUB с кастомной темой",
       Event.stdout "\x1b[0;31m\nОшибка на шаге 3: Настройка GRUB с кастомной темой\n\x1b[0m"] ∧
    (∃ k, k < 10 ∧ (if k = 2 then (5 : Int) else 0) ≠ 0 ∧
      (∀ j, j < k → (if j = 2 then (5 : Int) else 0) = 0) ∧
      reports (run_pipeline (fun i _ w => (if i = 2 then 5 else 0, w)) (init_config "/root")
        (sim_world [])).2.log = [(k + 1, step_name k)] ∧
      steps.get? k = some (step_name k) ∧
      (run_pipeline (fun i _ w => (if i = 2 then 5 else 0, w)) (init_config "/root")
        (sim_world [])).2.world.out.getLast? =
        some (Event.stdout
          ("\x1b[0;31m\nОшибка на шаге " ++ toString (k + 1) ++ ": " ++ step_name k ++
            "\n\x1b[0m"))) ∧
    (run_pipeline (fun i _ w => (if i = 2 then 5 else 0, w)) (init_config "/root")
      (sim_world [])).2.world.out =
      (sim_world []).out ++
        (List.range (2 + 1)).map (fun j => Event.progress (j + 1) 10 (step_name j)) ++
        [Event.stdout
          ("\x1b[0;31m\nОшибка на шаге " ++ toString (2 + 1) ++ ": " ++ step_name 2 ++
            "\n\x1b[0m")] :=
  ⟨by decide, by decide,
    ((failure_report (fun i _ w => (if i = 2 then 5 else 0, w)) (init_config "/root")
      (sim_world [])).2.2.1 (fun i => if i = 2 then 5 else 0) (fun _ _ => rfl)).1
        ⟨2, by decide, by decide⟩,
    ((failure_report (fun i _ w => (if i = 2 then 5 else 0, w)) (init_config "/root")
      (sim_world [])).2.2.2 (fun i => if i = 2 then 5 else 0) (fun _ _ => rfl)).1
        2 (by decide) (by decide) (by decide)⟩

/-! ## Facts about `main` -/

theorem parse_options_flags (argv0 : String) :
    ∀ (options : List Char) (config : BuildConfig) (w : World σ),
      (∀ c ∈ options, c = 'v' ∨ c = 'c') →
      ∃ config1, parse_options argv0 options config w = (none, config1, w) := by
  intro options
  induction options with
  | nil => intro config w _; exact ⟨config, rfl⟩
  | cons c rest ih =>
    intro config w h
    have hrest : ∀ x ∈ rest, x = 'v' ∨ x = 'c' := fun x hx => h x (List.mem_cons_of_mem _ hx)
    rcases h c (List.mem_cons_self _ _) with hc | hc
    · obtain ⟨c1, h1⟩ := ih { config with verbose := 1 } w hrest
      exact ⟨c1, by simp [parse_options, hc, h1]⟩
    · obtain ⟨c1, h1⟩ := ih { config with clean_build := 1 } w hrest
      exact ⟨c1, by simp [parse_options, hc, h1]⟩

theorem print_banner_sys (w : World σ) : (print_banner w).sys = w.sys := rfl

theorem main_with_pipeline (stage : Nat → BuildConfig → World σ → Int × World σ)
    (os : OS σ) (home argv0 : String) (options : List Char) (w : World σ)
    (hopts : ∀ c ∈ options, c = 'v' ∨ c = 'c') (huid : os.getuid w.sys = 0) :
    ∃ config,
      (main_with stage os home argv0 options w).1 =
        (run_pipeline stage config (print_start os (print_banner w))).1 ∧
      (main_with stage os home argv0 options w).2.log =
        (run_pipeline stage config (print_start os (print_banner w))).2.log := by
  obtain ⟨config, hp⟩ := parse_options_flags argv0 options (init_config home) w hopts
  refine ⟨config, ?_⟩
  simp only [main_with, hp, print_banner_sys, huid, ne_eq, not_true_eq_false, if_false]
  split <;> exact ⟨rfl, rfl⟩

/-- C2: in a run of `main` whose options are all `-v` or `-c` and whose user
id is `0`, the exit code is `0` exactly when the step loop called all ten
stages and each returned `0`; otherwise it is `1`, and then some stage returned
non-zero.  For results fixed in advance (`a i` for stage `i`) the exit code is
`0` exactly when all ten are `0`. -/
theorem main_exit_code (stage : Nat → BuildConfig → World σ → Int × World σ)
    (os : OS σ) (home argv0 : String) (options : List Char) (w : World σ)
    (hopts : ∀ c ∈ options, c = 'v' ∨ c = 'c') (huid : os.getuid w.sys = 0) :
    ((main_with stage os home argv0 options w).1 = 0 ↔
      (main_with stage os home argv0 options w).2.log = ok_entries 0 10) ∧
    ((main_with stage os home argv0 options w).1 = 0 ∨
      (main_with stage os home argv0 options w).1 = 1) ∧
    ((main_with stage os home argv0 options w).1 ≠ 0 →
      ∃ k r, k < 10 ∧ r ≠ 0 ∧
        DriverEvent.stage k r ∈ (main_with stage os home argv0 options w).2.log) ∧
    (∀ a : Nat → Int, (∀ i config w1, (stage i config w1).1 = a i) →
      ((main_with stage os home argv0 options w).1 = 0 ↔ ∀ i, i < 10 → a i = 0)) := by
  obtain ⟨config, h1, h2⟩ := main_with_pipeline stage os home argv0 options w hopts huid
  rw [h1, h2]
  rcases run_pipeline_shape stage config (print_start os (print_banner w)) with
    ⟨hres, hlog, hall⟩ | ⟨m, r0, hm, hr0, hres, hlog, hpre, hlast, _⟩
  · rw [hres, hlog]
    refine ⟨by simp, by simp, by simp, ?_⟩
    intro a ha
    simp only [true_iff]
    intro i hi
    obtain ⟨w1, hw1⟩ := hall i hi
    rw [ha] at hw1
    exact hw1
  · rw [hres, hlog]
    refine ⟨?_, by simp, ?_, ?_⟩
    · simp only [one_ne_zero, false_iff]
      intro heq
      have h3 := congrArg reports heq
      rw [reports_fail_log, reports_ok_entries] at h3
      cases h3
    · intro _
      exact ⟨m, r0, hm, hr0, by simp⟩
    · intro a ha
      simp only [one_ne_zero, false_iff]
      intro hall
      obtain ⟨w1, hw1⟩ := hlast
      rw [ha] at hw1
      exact hr0 (hw1 ▸ hall m hm)

/-- C2 at a concrete run: options `-v -c`, user id `0`, every command exits
with status `0`. -/
theorem main_exit_code_witness :
    (∀ c ∈ ['v', 'c'], c = 'v' ∨ c = 'c') ∧
    (sim_os (fun _ => 0)).getuid (sim_world []).sys = 0 ∧
    (((main_with (run_stage (sim_os (fun _ => 0))) (sim_os (fun _ => 0)) "/root" "luna"
        ['v', 'c'] (sim_world [])).1 = 0 ↔
      (main_with (run_stage (sim_os (fun _ => 0))) (sim_os (fun _ => 0)) "/root" "luna"
        ['v', 'c'] (sim_world [])).2.log = ok_entries 0 10)) :=
  ⟨by decide, rfl,
    (main_exit_code (run_stage (sim_os (fun _ => 0))) (sim_os (fun _ => 0)) "/root" "luna"
      ['v', 'c'] (sim_world []) (by decide) rfl).1⟩

/-! ## Facts about path expansion -/

theorem strstr_from_ge (needle : List Char) :
    ∀ (hay : List Char) (i j : Nat), strstr_from hay needle i = some j → i ≤ j := by
  intro hay
  induction hay with
  | nil =>
    intro i j h
    simp only [strstr_from] at h
    split at h
    · injection h with h; omega
    · cases h
  | cons c hay ih =>
    intro i j h
    simp only [strstr_from] at h
    split at h
    · injection h with h; omega
    · have := ih (i + 1) j h; omega

theorem strstr_tilde (path : String) :
    strstr path "~" = some 0 ↔ ∃ s : String, path = "~" ++ s := by
  have hd : ("~" : String).data = ['~'] := rfl
  constructor
  · intro h
    unfold strstr at h
    rw [hd] at h
    cases hp : path.data with
    | nil =>
      rw [hp] at h
      simp [strstr_from] at h
    | cons c cs =>
      rw [hp] at h
      simp only [strstr_from] at h
      split at h
      · rename_i hpre
        refine ⟨⟨cs⟩, ?_⟩
        have hc : c = '~' := by
          obtain ⟨t, ht⟩ := hpre
          simp at ht
          exact ht.1.symm
        apply String.ext
        rw [String.data_append, hp, hd, hc]
        rfl
      · have := strstr_from_ge _ _ _ _ h
        omega
  · rintro ⟨s, rfl⟩
    unfold strstr
    rw [String.data_append, hd]
    simp [strstr_from]

/-- C7: `config_expand_path` turns `~` followed by `s` into the home directory
followed by `s` (the block it allocates is exactly large enough), and gives
back a string equal to `path` when `path` does not begin with `~`. -/
theorem config_expand_path_spec (home path : String) :
    (∀ s : String, path = "~" ++ s → config_expand_path home path = some (home ++ s)) ∧
    ((∀ s : String, path ≠ "~" ++ s) → config_expand_path home path = some path) := by
  constructor
  · intro s hs
    have h := (strstr_tilde path).mpr ⟨s, hs⟩
    have ht : str_tail path = s := by
      subst hs
      apply String.ext
      simp [str_tail, String.data_append]
    have hlen : strlen (home ++ s) + 1 ≤ strlen home + strlen path := by
      subst hs
      rw [strlen_append, strlen_append]
      have h1 : strlen "~" = 1 := rfl
      omega
    simp [config_expand_path, h, ht, hlen]
  · intro hs
    have h : strstr path "~" ≠ some 0 := by
      intro h
      obtain ⟨s, hs1⟩ := (strstr_tilde path).mp h
      exact hs s hs1
    simp [config_expand_path, h]

/-- C7 at concrete paths. -/
theorem config_expand_path_spec_witness :
    config_expand_path "/home/luna" "~/luna-build" = some "/home/luna/luna-build" ∧
    config_expand_path "/home/luna" "/srv/~luna" = some "/srv/~luna" :=
  ⟨((config_expand_path_spec "/home/luna" "~/luna-build").1 "/luna-build" (by decide)).trans
      (by decide),
    (config_expand_path_spec "/home/luna" "/srv/~luna").2 (by
      intro s h
      have h1 := congrArg (fun t : String => t.data.head?) h
      simp only [String.data_append] at h1
      have h2 : (['~'] ++ s.data).head? = some '~' := rfl
      rw [h2] at h1
      exact absurd h1 (by decide))⟩

/-! ## Facts about directory staging -/

theorem make_dirs_spec (os : OS σ) :
    ∀ (dirs : List String) (w : World σ),
      ∃ evs, (make_dirs os dirs w).2.out = w.out ++ evs ∧
        ((make_dirs os dirs w).1 = 0 ∨ (make_dirs os dirs w).1 = 1) ∧
        ((make_dirs os dirs w).1 = 1 ↔
          ∃ d e, e ≠ EEXIST ∧ Event.mkdir d 0o755 (some e) ∈ evs) ∧
        (∀ d m r, Event.mkdir d m r ∈ evs → d ∈ dirs) := by
  intro dirs
  induction dirs with
  | nil =>
    intro w
    exact ⟨[], by simp [make_dirs], by simp [make_dirs], by simp [make_dirs], by simp⟩
  | cons d rest ih =>
    intro w
    obtain ⟨evs, h1, h2, h3, h4⟩ := ih (call_mkdir os d 0o755 w).2
    have hout : (call_mkdir os d 0o755 w).2.out =
        w.out ++ [Event.mkdir d 0o755 (os.mkdir d 0o755 w.sys).1] := rfl
    have hfst : (call_mkdir os d 0o755 w).1 = (os.mkdir d 0o755 w.sys).1 := rfl
    cases hr : (os.mkdir d 0o755 w.sys).1 with
    | none =>
      have hstep : make_dirs os (d :: rest) w = make_dirs os rest (call_mkdir os d 0o755 w).2 := by
        simp [make_dirs, hfst, hr]
      rw [hstep]
      refine ⟨Event.mkdir d 0o755 none :: evs, ?_, h2, ?_, ?_⟩
      · rw [h1, hout, hr]; simp
      · rw [h3]
        constructor
        · rintro ⟨d1, e, he, hmem⟩
          exact ⟨d1, e, he, List.mem_cons_of_mem _ hmem⟩
        · rintro ⟨d1, e, he, hmem⟩
          rcases List.mem_cons.mp hmem with heq | hmem
          · cases heq
          · exact ⟨d1, e, he, hmem⟩
      · intro d1 m r hmem
        rcases List.mem_cons.mp hmem with heq | hmem
        · injection heq with hd _ _
          rw [hd]; exact List.mem_cons_self _ _
        · exact List.mem_cons_of_mem _ (h4 d1 m r hmem)
    | some e0 =>
      by_cases he0 : e0 = EEXIST
      · have hstep : make_dirs os (d :: rest) w =
            make_dirs os rest (call_mkdir os d 0o755 w).2 := by
          simp [make_dirs, hfst, hr, he0]
        rw [hstep]
        refine ⟨Event.mkdir d 0o755 (some e0) :: evs, ?_, h2, ?_, ?_⟩
        · rw [h1, hout, hr]; simp
        · rw [h3]
          constructor
          · rintro ⟨d1, e, he, hmem⟩
            exact ⟨d1, e, he, List.mem_cons_of_mem _ hmem⟩
          · rintro ⟨d1, e, he, hmem⟩
            rcases List.mem_cons.mp hmem with heq | hmem
            · injection heq with _ _ h3
              injection h3 with h3
              exact absurd (h3.trans he0) he
            · exact ⟨d1, e, he, hmem⟩
        · intro d1 m r hmem
          rcases List.mem_cons.mp hmem with heq | hmem
          · injection heq with hd _ _
            rw [hd]; exact List.mem_cons_self _ _
          · exact List.mem_cons_of_mem _ (h4 d1 m r hmem)
      · have hstep : make_dirs os (d :: rest) w =
            (1, (call_mkdir os d 0o755 w).2.emit (Event.perror "Ошибка создания каталога")) := by
          simp [make_dirs, hfst, hr, he0]
        rw [hstep]
        refine ⟨[Event.mkdir d 0o755 (some e0), Event.perror "Ошибка создания каталога"],
          ?_, Or.inr rfl, ?_, ?_⟩
        · simp [World.emit, hout, hr]
        · simp only [true_iff]
          exact ⟨d, e0, he0, List.mem_cons_self _ _⟩
        · intro d1 m r hmem
          simp only [List.mem_cons, List.mem_singleton, List.not_mem_nil, or_false] at hmem
          rcases hmem with heq | heq
          · injection heq with hd _ _
            rw [hd]; exact List.mem_cons_self _ _
          · cases heq

theorem make_dirs_all_present (os : OS σ) (present : σ → String → Bool)
    (laws : MkdirLaws os present) :
    ∀ (dirs : List String) (w : World σ), (∀ d ∈ dirs, present w.sys d = true) →
      (make_dirs os dirs w).1 = 0 ∧ (make_dirs os dirs w).2.sys = w.sys := by
  intro dirs
  induction dirs with
  | nil => intro w _; simp [make_dirs]
  | cons d rest ih =>
    intro w h
    have hm := laws.on_present w.sys d 0o755 (h d (List.mem_cons_self _ _))
    have hsys : (call_mkdir os d 0o755 w).2.sys = w.sys := by simp [call_mkdir, hm]
    have hstep : make_dirs os (d :: rest) w = make_dirs os rest (call_mkdir os d 0o755 w).2 := by
      simp [make_dirs, call_mkdir, hm]
    rw [hstep]
    have hrest : ∀ x ∈ rest, present (call_mkdir os d 0o755 w).2.sys x = true := by
      intro x hx
      rw [hsys]
      exact h x (List.mem_cons_of_mem _ hx)
    obtain ⟨h1, h2⟩ := ih _ hrest
    exact ⟨h1, h2.trans hsys⟩

theorem make_dirs_leaves_present (os : OS σ) (present : σ → String → Bool)
    (laws : MkdirLaws os present) :
    ∀ (dirs : List String) (w : World σ), (make_dirs os dirs w).1 = 0 →
      (∀ d ∈ dirs, present (make_dirs os dirs w).2.sys d = true) ∧
      (∀ q, present w.sys q = true → present (make_dirs os dirs w).2.sys q = true) := by
  intro dirs
  induction dirs with
  | nil => intro w _; simp [make_dirs]
  | cons d rest ih =>
    intro w h
    have hsys : (call_mkdir os d 0o755 w).2.sys = (os.mkdir d 0o755 w.sys).2 := rfl
    have hfst : (call_mkdir os d 0o755 w).1 = (os.mkdir d 0o755 w.sys).1 := rfl
    have hgo : make_dirs os (d :: rest) w = make_dirs os rest (call_mkdir os d 0o755 w).2 ∧
        present (os.mkdir d 0o755 w.sys).2 d = true := by
      cases hr : (os.mkdir d 0o755 w.sys).1 with
      | none =>
        exact ⟨by simp [make_dirs, hfst, hr], laws.after_success _ _ _ hr⟩
      | some e0 =>
        by_cases he0 : e0 = EEXIST
        · exact ⟨by simp [make_dirs, hfst, hr, he0], laws.after_eexist _ _ _ (he0 ▸ hr)⟩
        · simp [make_dirs, hfst, hr, he0] at h
    obtain ⟨hstep, hd⟩ := hgo
    rw [hstep] at h ⊢
    obtain ⟨h1, h2⟩ := ih _ h
    constructor
    · intro x hx
      rcases List.mem_cons.mp hx with rfl | hx
      · exact h2 _ (by rw [hsys]; exact hd)
      · exact h1 x hx
    · intro q hq
      exact h2 q (by rw [hsys]; exact laws.keeps _ _ _ _ hq)

theorem sim_os_mkdir_laws (status : String → Int) : MkdirLaws (sim_os status) sim_present where
  on_present := by
    intro s p mode h
    have hp : p ∈ s := by simpa [sim_present] using h
    simp [sim_os, hp]
  after_success := by
    intro s p mode h
    by_cases hp : p ∈ s
    · simp [sim_os, hp] at h
    · simp [sim_os, hp, sim_present]
  after_eexist := by
    intro s p mode h
    by_cases hp : p ∈ s
    · simp [sim_os, hp, sim_present]
    · simp [sim_os, hp] at h
  keeps := by
    intro s p mode q h
    have hq : q ∈ s := by simpa [sim_present] using h
    by_cases hp : p ∈ s
    · simp [sim_os, hp, sim_present, hq]
    · simp [sim_os, hp, sim_present, hq]

theorem create_directory_structure_unclean (os : OS σ) (config : BuildConfig) (w : World σ)
    (hclean : config.clean_build = 0) :
    create_directory_structure os config w =
      make_dirs os (staging_dirs config)
        (printf (COLOR_YELLOW ++ "Создание структуры каталогов...\n" ++ COLOR_RESET) w) := by
  simp [create_directory_structure, clean_previous_build, hclean]

/-- C8: with `clean_build` off, `create_directory_structure` returns `1`
exactly when one of the `mkdir` calls it makes on the work, chroot, image and
iso directories fails with an `errno` other than `EEXIST`, and `0` otherwise.
Under the POSIX behaviour of `mkdir`, after a run that returned `0` the four
paths are there and a second run on the resulting state returns `0` again; so
does any run on a state where the four are there. -/
theorem directory_staging (os : OS σ) (present : σ → String → Bool) (config : BuildConfig)
    (w : World σ) (hclean : config.clean_build = 0) :
    ((create_directory_structure os config w).1 = 1 ↔
      ∃ d ∈ staging_dirs config, ∃ e, e ≠ EEXIST ∧
        Event.mkdir d 0o755 (some e) ∈
          events_since w (create_directory_structure os config w).2) ∧
    ((create_directory_structure os config w).1 = 0 ∨
      (create_directory_structure os config w).1 = 1) ∧
    (MkdirLaws os present → (create_directory_structure os config w).1 = 0 →
      (∀ d ∈ staging_dirs config,
        present (create_directory_structure os config w).2.sys d = true) ∧
      (create_directory_structure os config
        (create_directory_structure os config w).2).1 = 0) ∧
    (MkdirLaws os present → (∀ d ∈ staging_dirs config, present w.sys d = true) →
      (create_directory_structure os config w).1 = 0) := by
  have hdef := create_directory_structure_unclean os config w hclean
  obtain ⟨evs, h1, h2, h3, h4⟩ := make_dirs_spec os (staging_dirs config)
    (printf (COLOR_YELLOW ++ "Создание структуры каталогов...\n" ++ COLOR_RESET) w)
  have hev : events_since w (create_directory_structure os config w).2 =
      Event.stdout (COLOR_YELLOW ++ "Создание структуры каталогов...\n" ++ COLOR_RESET) :: evs := by
    apply events_since_append
    rw [hdef, h1]
    simp [printf, World.emit]
  refine ⟨?_, ?_, ?_, ?_⟩
  · rw [hev, hdef, h3]
    constructor
    · rintro ⟨d, e, he, hmem⟩
      exact ⟨d, h4 _ _ _ hmem, e, he, List.mem_cons_of_mem _ hmem⟩
    · rintro ⟨d, _, e, he, hmem⟩
      rcases List.mem_cons.mp hmem with heq | hmem
      · cases heq
      · exact ⟨d, e, he, hmem⟩
  · rw [hdef]; exact h2
  · intro laws h0
    rw [hdef] at h0
    obtain ⟨hp, _⟩ := make_dirs_leaves_present os present laws _ _ h0
    have hp1 : ∀ d ∈ staging_dirs config,
        present (create_directory_structure os config w).2.sys d = true := by
      rw [hdef]; exact hp
    refine ⟨hp1, ?_⟩
    rw [create_directory_structure_unclean os config _ hclean]
    exact (make_dirs_all_present os present laws _ (printf _ _) hp1).1
  · intro laws hp
    rw [hdef]
    exact (make_dirs_all_present os present laws _ (printf _ _) hp).1

/-- C8 at a concrete run: an empty file system, where `mkdir` follows the
POSIX behaviour; the first run creates the four directories and returns `0`,
and so does the second. -/
theorem directory_staging_witness :
    (init_config "/root").clean_build = 0 ∧
    MkdirLaws (sim_os (fun _ => 0)) sim_present ∧
    (create_directory_structure (sim_os (fun _ => 0)) (init_config "/root")
      (sim_world [])).1 = 0 ∧
    (create_directory_structure (sim_os (fun _ => 0)) (init_config "/root")
      (create_directory_structure (sim_os (fun _ => 0)) (init_config "/root")
        (sim_world [])).2).1 = 0 :=
  ⟨rfl, sim_os_mkdir_laws _, by decide,
    ((directory_staging (sim_os (fun _ => 0)) sim_present (init_config "/root")
      (sim_world []) rfl).2.2.1 (sim_os_mkdir_laws _) (by decide)).2⟩

theorem make_dirs_first (os : OS σ) (d : String) (rest : List String) (w : World σ) :
    ∃ more, (make_dirs os (d :: rest) w).2.out =
      w.out ++ Event.mkdir d 0o755 (os.mkdir d 0o755 w.sys).1 :: more := by
  have hout : (call_mkdir os d 0o755 w).2.out =
      w.out ++ [Event.mkdir d 0o755 (os.mkdir d 0o755 w.sys).1] := rfl
  have hfst : (call_mkdir os d 0o755 w).1 = (os.mkdir d 0o755 w.sys).1 := rfl
  have hrec : ∃ more, (make_dirs os rest (call_mkdir os d 0o755 w).2).2.out =
      w.out ++ Event.mkdir d 0o755 (os.mkdir d 0o755 w.sys).1 :: more := by
    obtain ⟨evs, h1, _⟩ := make_dirs_spec os rest (call_mkdir os d 0o755 w).2
    exact ⟨evs, by rw [h1, hout]; simp⟩
  cases hr : (os.mkdir d 0o755 w.sys).1 with
  | none =>
    rw [hr] at hrec
    simpa [make_dirs, hfst, hr] using hrec
  | some e0 =>
    rw [hr] at hrec
    by_cases he0 : e0 = EEXIST
    · simpa [make_dirs, hfst, hr, he0] using hrec
    · exact ⟨[Event.perror "Ошибка создания каталога"], by
        simp [make_dirs, hfst, hr, he0, World.emit, hout]⟩

theorem clean_build_first (os : OS σ) (config : BuildConfig) (w : World σ)
    (hclean : config.clean_build ≠ 0) :
    ∃ more, events_since w (create_directory_structure os config w).2 =
      [Event.stdout (COLOR_YELLOW ++ "Создание структуры каталогов...\n" ++ COLOR_RESET),
       Event.system (snprintf 512 ("rm -rf " ++ config.workdir))
        (os.system (snprintf 512 ("rm -rf " ++ config.workdir)) w.sys).1] ++
      (if (os.system (snprintf 512 ("rm -rf " ++ config.workdir)) w.sys).1 ≠ 0
        then [Event.stdout (error_line (snprintf 512 ("rm -rf " ++ config.workdir)))]
        else []) ++
      Event.mkdir config.workdir 0o755
        (os.mkdir config.workdir 0o755
          (os.system (snprintf 512 ("rm -rf " ++ config.workdir)) w.sys).2).1 :: more := by
  have hsys : (clean_previous_build os config
      (printf (COLOR_YELLOW ++ "Создание структуры каталогов...\n" ++ COLOR_RESET) w)).sys =
      (os.system (snprintf 512 ("rm -rf " ++ config.workdir)) w.sys).2 := by
    simp only [clean_previous_build, hclean, ne_eq, not_false_eq_true, if_true]
    rw [execute_command_sys]; rfl
  have hout : (clean_previous_build os config
      (printf (COLOR_YELLOW ++ "Создание структуры каталогов...\n" ++ COLOR_RESET) w)).out =
      w.out ++ ([Event.stdout (COLOR_YELLOW ++ "Создание структуры каталогов...\n" ++ COLOR_RESET),
       Event.system (snprintf 512 ("rm -rf " ++ config.workdir))
        (os.system (snprintf 512 ("rm -rf " ++ config.workdir)) w.sys).1] ++
      (if (os.system (snprintf 512 ("rm -rf " ++ config.workdir)) w.sys).1 ≠ 0
        then [Event.stdout (error_line (snprintf 512 ("rm -rf " ++ config.workdir)))]
        else [])) := by
    simp only [clean_previous_build, hclean, ne_eq, not_false_eq_true, if_true]
    rw [execute_command_out]
    simp [printf, World.emit]
  obtain ⟨more, hm⟩ := make_dirs_first os config.workdir
    [config.chroot, config.imagedir, config.isodir]
    (clean_previous_build os config
      (printf (COLOR_YELLOW ++ "Создание структуры каталогов...\n" ++ COLOR_RESET) w))
  refine ⟨more, ?_⟩
  apply events_since_append
  show (make_dirs os (config.workdir :: [config.chroot, config.imagedir, config.isodir])
    (clean_previous_build os config
      (printf (COLOR_YELLOW ++ "Создание структуры каталогов...\n" ++ COLOR_RESET) w))).2.out = _
  rw [hm, hsys, hout]
  simp

theorem make_dirs_calls (os : OS σ) :
    ∀ (dirs : List String) (w : World σ),
      system_calls (make_dirs os dirs w).2.out = system_calls w.out := by
  intro dirs
  induction dirs with
  | nil => intro w; rfl
  | cons d rest ih =>
    intro w
    have hout : system_calls (call_mkdir os d 0o755 w).2.out = system_calls w.out := by
      simp [call_mkdir, system_calls, List.filterMap_append]
    have hfst : (call_mkdir os d 0o755 w).1 = (os.mkdir d 0o755 w.sys).1 := rfl
    cases hr : (os.mkdir d 0o755 w.sys).1 with
    | none =>
      have hstep : make_dirs os (d :: rest) w = make_dirs os rest (call_mkdir os d 0o755 w).2 := by
        simp [make_dirs, hfst, hr]
      rw [hstep, ih, hout]
    | some e0 =>
      by_cases he0 : e0 = EEXIST
      · have hstep : make_dirs os (d :: rest) w =
            make_dirs os rest (call_mkdir os d 0o755 w).2 := by
          simp [make_dirs, hfst, hr, he0]
        rw [hstep, ih, hout]
      · have hstep : make_dirs os (d :: rest) w =
            (1, (call_mkdir os d 0o755 w).2.emit (.perror "Ошибка создания каталога")) := by
          simp [make_dirs, hfst, hr, he0]
        rw [hstep, ← hout]
        simp [World.emit, system_calls, List.filterMap_append]

/-- C9, as the code has it: with `clean_build` set, `create_directory_structure`
prints its banner, runs `rm -rf` on the work directory and drops the status,
and makes its first `mkdir` call, on the work directory, in the state that
command left.  So the work directory is absent at that call when the command
exits with status `0` and a status of `0` means the tree is gone; nothing is
claimed when the command fails.  That `rm -rf` is the only command the stage
runs. -/
theorem clean_build_runs_rm (os : OS σ) (present : σ → String → Bool)
    (config : BuildConfig) (w : World σ) (hclean : config.clean_build ≠ 0) :
    (∃ more, events_since w (create_directory_structure os config w).2 =
      [Event.stdout (COLOR_YELLOW ++ "Создание структуры каталогов...\n" ++ COLOR_RESET),
       Event.system (snprintf 512 ("rm -rf " ++ config.workdir))
        (os.system (snprintf 512 ("rm -rf " ++ config.workdir)) w.sys).1] ++
      (if (os.system (snprintf 512 ("rm -rf " ++ config.workdir)) w.sys).1 ≠ 0
        then [Event.stdout (error_line (snprintf 512 ("rm -rf " ++ config.workdir)))]
        else []) ++
      Event.mkdir config.workdir 0o755
        (os.mkdir config.workdir 0o755
          (os.system (snprintf 512 ("rm -rf " ++ config.workdir)) w.sys).2).1 :: more) ∧
    ((∀ s, (os.system (snprintf 512 ("rm -rf " ++ config.workdir)) s).1 = 0 →
        present (os.system (snprintf 512 ("rm -rf " ++ config.workdir)) s).2
          config.workdir = false) →
      (os.system (snprintf 512 ("rm -rf " ++ config.workdir)) w.sys).1 = 0 →
      present (os.system (snprintf 512 ("rm -rf " ++ config.workdir)) w.sys).2
        config.workdir = false) ∧
    system_calls (events_since w (create_directory_structure os config w).2) =
      [(snprintf 512 ("rm -rf " ++ config.workdir),
        (os.system (snprintf 512 ("rm -rf " ++ config.workdir)) w.sys).1)] := by
  refine ⟨clean_build_first os config w hclean, fun hlaw h0 => hlaw _ h0, ?_⟩
  obtain ⟨evs, hevs, _⟩ := make_dirs_spec os (staging_dirs config)
    (clean_previous_build os config
      (printf (COLOR_YELLOW ++ "Создание структуры каталогов...\n" ++ COLOR_RESET) w))
  have hext : (create_directory_structure os config w).2.out =
      w.out ++ events_since w (create_directory_structure os config w).2 := by
    have hw2 : ∃ pre, (clean_previous_build os config
        (printf (COLOR_YELLOW ++ "Создание структуры каталогов...\n" ++ COLOR_RESET) w)).out =
        w.out ++ pre := by
      simp only [clean_previous_build, hclean, ne_eq, not_false_eq_true, if_true]
      refine ⟨?pre, ?h⟩
      case h =>
        rw [execute_command_out]
        simp only [printf, World.emit, List.append_assoc]
        exact rfl
    obtain ⟨pre, hpre⟩ := hw2
    have hall : (create_directory_structure os config w).2.out = w.out ++ (pre ++ evs) := by
      show (make_dirs os (staging_dirs config) _).2.out = _
      rw [hevs, hpre, List.append_assoc]
    rw [events_since_append w _ _ hall, hall]
  have hcalls : system_calls (create_directory_structure os config w).2.out =
      system_calls w.out ++
        [(snprintf 512 ("rm -rf " ++ config.workdir),
          (os.system (snprintf 512 ("rm -rf " ++ config.workdir)) w.sys).1)] := by
    show system_calls (make_dirs os (staging_dirs config) _).2.out = _
    rw [make_dirs_calls]
    simp only [clean_previous_build, hclean, ne_eq, not_false_eq_true, if_true]
    rw [execute_command_out]
    by_cases hs : (os.system (snprintf 512 ("rm -rf " ++ config.workdir)) w.sys).1 = 0 <;>
      simp [system_calls, List.filterMap_append, hs, printf, World.emit]
  rw [hext] at hcalls
  simp only [system_calls, List.filterMap_append] at hcalls
  exact List.append_cancel_left hcalls

/-- C9 at a concrete run: the work directory holds an old tree, and the
`rm -rf` command exits with status `0` having removed it. -/
theorem clean_build_runs_rm_witness :
    ({ init_config "/root" with clean_build := 1 } : BuildConfig).clean_build ≠ 0 ∧
    (sim_os (fun _ => 0)).system "rm -rf /root/luna-linux-build"
      ["/root/luna-linux-build", "/root/luna-linux-build/chroot/etc"] = (0, []) ∧
    sim_present
      ((sim_os (fun _ => 0)).system
        (snprintf 512 ("rm -rf " ++
          ({ init_config "/root" with clean_build := 1 } : BuildConfig).workdir))
        (sim_world ["/root/luna-linux-build", "/root/luna-linux-build/chroot/etc"]).sys).2
      ({ init_config "/root" with clean_build := 1 } : BuildConfig).workdir = false :=
  ⟨by decide, by decide,
    (clean_build_runs_rm (sim_os (fun _ => 0)) sim_present
      { init_config "/root" with clean_build := 1 }
      (sim_world ["/root/luna-linux-build", "/root/luna-linux-build/chroot/etc"])
      (by decide)).2.1 (by
        intro s h
        simp only [sim_present, decide_eq_false_iff_not]
        intro hmem
        have hcmd : snprintf 512 ("rm -rf " ++
            ({ init_config "/root" with clean_build := 1 } : BuildConfig).workdir) =
            "rm -rf /root/luna-linux-build" := by decide
        rw [hcmd] at hmem
        have hpre : "rm -rf ".data <+: "rm -rf /root/luna-linux-build".data := by decide
        simp only [sim_os, sim_system, hpre, and_self, if_true, List.mem_filter] at hmem
        have hd : ("rm -rf /root/luna-linux-build".data.drop 7).isPrefixOf
            "/root/luna-linux-build".data = true := by decide
        have hw : ({ init_config "/root" with clean_build := 1 } : BuildConfig).workdir =
            "/root/luna-linux-build" := by decide
        rw [hw] at hmem
        simp [hd] at hmem) (by decide)⟩

/-- C9 fails when the `rm -rf` command fails: here it exits with code `1`
(status `256`) and removes nothing; `create_directory_structure` goes on, its
first `mkdir` finds the work directory there (`EEXIST`), the old content is
still there at the end, and the stage returns `0`. -/
theorem clean_build_rm_failure :
    ({ init_config "/root" with clean_build := 1 } : BuildConfig).clean_build = 1 ∧
    sim_present
      (clean_previous_build (sim_os (fun _ => 256)) { init_config "/root" with clean_build := 1 }
        (sim_world ["/root/luna-linux-build", "/root/luna-linux-build/chroot/etc"])).sys
      "/root/luna-linux-build" = true ∧
    (create_directory_structure (sim_os (fun _ => 256))
      { init_config "/root" with clean_build := 1 }
      (sim_world ["/root/luna-linux-build", "/root/luna-linux-build/chroot/etc"])).2.out =
      [Event.stdout (COLOR_YELLOW ++ "Создание структуры каталогов...\n" ++ COLOR_RESET),
       Event.system "rm -rf /root/luna-linux-build" 256,
       Event.stdout (error_line "rm -rf /root/luna-linux-build"),
       Event.mkdir "/root/luna-linux-build" 0o755 (some EEXIST),
       Event.mkdir "/root/luna-linux-build/chroot" 0o755 none,
       Event.mkdir "/root/luna-linux-build/image" 0o755 none,
       Event.mkdir "/root/luna-linux-build/iso" 0o755 none] ∧
    sim_present
      (create_directory_structure (sim_os (fun _ => 256))
        { init_config "/root" with clean_build := 1 }
        (sim_world ["/root/luna-linux-build", "/root/luna-linux-build/chroot/etc"])).2.sys
      "/root/luna-linux-build/chroot/etc" = true ∧
    (create_directory_structure (sim_os (fun _ => 256))
      { init_config "/root" with clean_build := 1 }
      (sim_world ["/root/luna-linux-build", "/root/luna-linux-build/chroot/etc"])).1 = 0 := by
  decide

/-! ## Facts about the tool checks -/

theorem printf_sys (text : String) (w : World σ) : (printf text w).sys = w.sys := rfl

theorem printf_out (text : String) (w : World σ) :
    (printf text w).out = w.out ++ [Event.stdout text] := rfl

theorem system_calls_append (a b : List Event) :
    system_calls (a ++ b) = system_calls a ++ system_calls b := by
  simp [system_calls, List.filterMap_append]

theorem system_calls_execute (cmd : String) (v status : Int) :
    system_calls ((if v ≠ 0 then [Event.stdout (echo_line cmd)] else []) ++
        [Event.system cmd status] ++
        (if status ≠ 0 ∧ v = 0 then [Event.stdout (error_line cmd)] else [])) =
      [(cmd, status)] := by
  by_cases hv : v = 0 <;> by_cases hs : status = 0 <;> simp [system_calls, hv, hs]

theorem write_file_spec (os : OS σ) (filename content : String) (w : World σ) :
    ∃ ok rest, (write_file os filename content w).2.out =
        w.out ++ Event.fopen filename ok :: rest ∧
      system_calls rest = [] ∧
      ((write_file os filename content w).1 = 0 ∨ (write_file os filename content w).1 = 1) := by
  unfold write_file
  cases h1 : (call_fopen os filename w).1 with
  | false =>
    refine ⟨false, [Event.perror "Ошибка открытия файла"], ?_, rfl, ?_⟩
    · simp only [h1]
      simp [World.emit, call_fopen] at h1 ⊢
      simp [h1]
    · simp [h1]
  | true =>
    cases h2 : (call_fputs os filename content (call_fopen os filename w).2).1 with
    | false =>
      refine ⟨true, [Event.fputs filename content false,
        Event.perror "Ошибка записи в файл", Event.fclose filename], ?_, rfl, ?_⟩
      · simp only [h1, h2]
        simp [World.emit, call_fopen, call_fputs, call_fclose] at h1 h2 ⊢
        simp [h1, h2]
      · simp [h1, h2]
    | true =>
      refine ⟨true, [Event.fputs filename content true, Event.fclose filename,
        Event.chmod filename 0o755], ?_, rfl, ?_⟩
      · simp only [h1, h2]
        simp [call_fopen, call_fputs, call_fclose, call_chmod] at h1 h2 ⊢
        simp [h1, h2]
      · simp [h1, h2]

theorem script_stage_spec (os : OS σ)
    (banner script_path content cp_cmd chmod_cmd chroot_cmd : String) (verbose : Int)
    (w : World σ) :
    (∃ ok rest,
      events_since w (script_stage os banner script_path content cp_cmd chmod_cmd chroot_cmd
        verbose w).2 = Event.stdout banner :: Event.fopen script_path ok :: rest) ∧
    ((write_file os script_path content (printf banner w)).1 ≠ 0 →
      (script_stage os banner script_path content cp_cmd chmod_cmd chroot_cmd verbose w).1 = 1 ∧
      system_calls (events_since w
        (script_stage os banner script_path content cp_cmd chmod_cmd chroot_cmd verbose w).2) =
        []) ∧
    ((write_file os script_path content (printf banner w)).1 = 0 →
      ∃ st1 st2 st3,
        system_calls (events_since w
          (script_stage os banner script_path content cp_cmd chmod_cmd chroot_cmd verbose w).2) =
          [(cp_cmd, st1), (chmod_cmd, st2), (chroot_cmd, st3)] ∧
        (script_stage os banner script_path content cp_cmd chmod_cmd chroot_cmd verbose w).1 =
          (if st3 = 0 then 0 else 1)) := by
  obtain ⟨ok, rest, hout, hsys, _⟩ := write_file_spec os script_path content (printf banner w)
  rw [printf_out] at hout
  by_cases hw : (write_file os script_path content (printf banner w)).1 = 0
  · have hdef : script_stage os banner script_path content cp_cmd chmod_cmd chroot_cmd verbose w =
        execute_command os chroot_cmd verbose
          (execute_command os chmod_cmd 0
            (execute_command os cp_cmd 0
              (write_file os script_path content (printf banner w)).2).2).2 := by
      simp [script_stage, hw]
    have hev : ∃ st1 st2 st3 more,
        events_since w (script_stage os banner script_path content cp_cmd chmod_cmd chroot_cmd
          verbose w).2 = (Event.stdout banner :: Event.fopen script_path ok :: rest) ++ more ∧
        system_calls more = [(cp_cmd, st1), (chmod_cmd, st2), (chroot_cmd, st3)] ∧
        (script_stage os banner script_path content cp_cmd chmod_cmd chroot_cmd verbose w).1 =
          (if st3 = 0 then 0 else 1) := by
      refine ⟨(os.system cp_cmd (write_file os script_path content (printf banner w)).2.sys).1,
        (os.system chmod_cmd
          (os.system cp_cmd (write_file os script_path content (printf banner w)).2.sys).2).1,
        (os.system chroot_cmd
          (os.system chmod_cmd
            (os.system cp_cmd
              (write_file os script_path content (printf banner w)).2.sys).2).2).1,
        ((if (0 : Int) ≠ 0 then [Event.stdout (echo_line cp_cmd)] else []) ++
          [Event.system cp_cmd
            (os.system cp_cmd (write_file os script_path content (printf banner w)).2.sys).1] ++
          (if (os.system cp_cmd
              (write_file os script_path content (printf banner w)).2.sys).1 ≠ 0 ∧ (0 : Int) = 0
            then [Event.stdout (error_line cp_cmd)] else [])) ++
        ((if (0 : Int) ≠ 0 then [Event.stdout (echo_line chmod_cmd)] else []) ++
          [Event.system chmod_cmd
            (os.system chmod_cmd
              (os.system cp_cmd
                (write_file os script_path content (printf banner w)).2.sys).2).1] ++
          (if (os.system chmod_cmd
              (os.system cp_cmd
                (write_file os script_path content (printf banner w)).2.sys).2).1 ≠ 0 ∧
              (0 : Int) = 0
            then [Event.stdout (error_line chmod_cmd)] else [])) ++
        ((if verbose ≠ 0 then [Event.stdout (echo_line chroot_cmd)] else []) ++
          [Event.system chroot_cmd
            (os.system chroot_cmd
              (os.system chmod_cmd
                (os.system cp_cmd
                  (write_file os script_path content (printf banner w)).2.sys).2).2).1] ++
          (if (os.system chroot_cmd
              (os.system chmod_cmd
                (os.system cp_cmd
                  (write_file os script_path content (printf banner w)).2.sys).2).2).1 ≠ 0 ∧
              verbose = 0
            then [Event.stdout (error_line chroot_cmd)] else [])), ?_, ?_, ?_⟩
      · apply events_since_append
        rw [hdef, execute_command_out, execute_command_out, execute_command_out, hout]
        simp only [execute_command_sys, List.append_assoc, List.singleton_append,
          List.cons_append, List.nil_append]
      · rw [system_calls_append, system_calls_append, system_calls_execute,
          system_calls_execute, system_calls_execute]
        rfl
      · rw [hdef, execute_command_fst]
        simp only [execute_command_sys]
    obtain ⟨st1, st2, st3, more, h1, h2, h3⟩ := hev
    refine ⟨⟨ok, rest ++ more, by rw [h1]; simp⟩, fun h => absurd hw h, fun _ => ?_⟩
    refine ⟨st1, st2, st3, ?_, h3⟩
    have hpre : system_calls (Event.stdout banner :: Event.fopen script_path ok :: rest) =
        system_calls rest := rfl
    rw [h1, system_calls_append, h2, hpre, hsys]
    rfl
  · have hdef : script_stage os banner script_path content cp_cmd chmod_cmd chroot_cmd verbose w =
        (1, (write_file os script_path content (printf banner w)).2) := by
      simp [script_stage, hw]
    have hev : events_since w (script_stage os banner script_path content cp_cmd chmod_cmd
        chroot_cmd verbose w).2 = Event.stdout banner :: Event.fopen script_path ok :: rest := by
      apply events_since_append
      rw [hdef, hout]
      simp
    refine ⟨⟨ok, rest, hev⟩, fun _ => ⟨by rw [hdef], ?_⟩, fun h => absurd h hw⟩
    have hpre : system_calls (Event.stdout banner :: Event.fopen script_path ok :: rest) =
        system_calls rest := rfl
    rw [hev, hpre, hsys]

theorem customize_grub_shape (os : OS σ) (config : BuildConfig) (w : World σ) :
    customize_grub os config w =
      script_stage os (COLOR_YELLOW ++ "Настройка кастомного GRUB с логотипом Луны...\n" ++ COLOR_RESET)
        "/tmp/setup-grub.sh" grub_setup
        (snprintf 512 ("cp " ++ "/tmp/setup-grub.sh" ++ " " ++ config.chroot ++ "/tmp/"))
        (snprintf 512 ("chmod +x " ++ config.chroot ++ "/tmp/setup-grub.sh"))
        (snprintf 512 ("chroot " ++ config.chroot ++ " /bin/bash /tmp/setup-grub.sh"))
        config.verbose w := rfl

theorem install_kde_plasma_shape (os : OS σ) (config : BuildConfig) (w : World σ) :
    install_kde_plasma os config w =
      script_stage os (COLOR_YELLOW ++ "Установка KDE Plasma с Wayland...\n" ++ COLOR_RESET)
        "/tmp/setup-kde.sh" kde_setup
        (snprintf 512 ("cp " ++ "/tmp/setup-kde.sh" ++ " " ++ config.chroot ++ "/tmp/"))
        (snprintf 512 ("chmod +x " ++ config.chroot ++ "/tmp/setup-kde.sh"))
        (snprintf 512 ("chroot " ++ config.chroot ++ " /bin/bash /tmp/setup-kde.sh"))
        config.verbose w := rfl

theorem install_calamares_shape (os : OS σ) (config : BuildConfig) (w : World σ) :
    install_calamares os config w =
      script_stage os (COLOR_YELLOW ++ "Установка Calamares...\n" ++ COLOR_RESET)
        "/tmp/setup-calamares.sh" calamares_setup
        (snprintf 512 ("cp " ++ "/tmp/setup-calamares.sh" ++ " " ++ config.chroot ++ "/tmp/"))
        (snprintf 512 ("chmod +x " ++ config.chroot ++ "/tmp/setup-calamares.sh"))
        (snprintf 512 ("chroot " ++ config.chroot ++ " /bin/bash /tmp/setup-calamares.sh"))
        config.verbose w := rfl

theorem install_additional_software_shape (os : OS σ) (config : BuildConfig) (w : World σ) :
    install_additional_software os config w =
      script_stage os (COLOR_YELLOW ++ "Установка дополнительного ПО...\n" ++ COLOR_RESET)
        "/tmp/setup-software.sh" software_setup
        (snprintf 512 ("cp " ++ "/tmp/setup-software.sh" ++ " " ++ config.chroot ++ "/tmp/"))
        (snprintf 512 ("chmod +x " ++ config.chroot ++ "/tmp/setup-software.sh"))
        (snprintf 512 ("chroot " ++ config.chroot ++ " /bin/bash /tmp/setup-software.sh"))
        config.verbose w := rfl

/-- C16: in each of the four script stages, when `write_file` of the script to
its path under `/tmp` returns non-zero (the file cannot be opened, or the
text cannot be written), the stage returns `1` and hands no command to
`system`: no copy, no `chmod`, no `chroot`. -/
theorem script_write_failure (os : OS σ) (config : BuildConfig) (w : World σ) :
    ((write_file os "/tmp/setup-grub.sh" grub_setup
        (printf (COLOR_YELLOW ++ "Настройка кастомного GRUB с логотипом Луны...\n" ++
          COLOR_RESET) w)).1 ≠ 0 →
      (customize_grub os config w).1 = 1 ∧
      system_calls (events_since w (customize_grub os config w).2) = []) ∧
    ((write_file os "/tmp/setup-kde.sh" kde_setup
        (printf (COLOR_YELLOW ++ "Установка KDE Plasma с Wayland...\n" ++ COLOR_RESET) w)).1 ≠ 0 →
      (install_kde_plasma os config w).1 = 1 ∧
      system_calls (events_since w (install_kde_plasma os config w).2) = []) ∧
    ((write_file os "/tmp/setup-calamares.sh" calamares_setup
        (printf (COLOR_YELLOW ++ "Установка Calamares...\n" ++ COLOR_RESET) w)).1 ≠ 0 →
      (install_calamares os config w).1 = 1 ∧
      system_calls (events_since w (install_calamares os config w).2) = []) ∧
    ((write_file os "/tmp/setup-software.sh" software_setup
        (printf (COLOR_YELLOW ++ "Установка дополнительного ПО...\n" ++ COLOR_RESET) w)).1 ≠ 0 →
      (install_additional_software os config w).1 = 1 ∧
      system_calls (events_since w (install_additional_software os config w).2) = []) := by
  refine ⟨?_, ?_, ?_, ?_⟩
  · rw [customize_grub_shape]
    exact (script_stage_spec os _ _ _ _ _ _ _ w).2.1
  · rw [install_kde_plasma_shape]
    exact (script_stage_spec os _ _ _ _ _ _ _ w).2.1
  · rw [install_calamares_shape]
    exact (script_stage_spec os _ _ _ _ _ _ _ w).2.1
  · rw [install_additional_software_shape]
    exact (script_stage_spec os _ _ _ _ _ _ _ w).2.1

/-- C16 at a concrete run: no file can be opened for writing; `customize_grub`
returns `1` after the failed `fopen` and runs no command. -/
theorem script_write_failure_witness :
    (customize_grub (sim_os_no_write (fun _ => 0)) (init_config "/root") (sim_world [])).2.out =
      [Event.stdout (COLOR_YELLOW ++ "Настройка кастомного GRUB с логотипом Луны...\n" ++
        COLOR_RESET),
       Event.fopen "/tmp/setup-grub.sh" false,
       Event.perror "Ошибка открытия файла"] ∧
    (customize_grub (sim_os_no_write (fun _ => 0)) (init_config "/root") (sim_world [])).1 = 1 ∧
    system_calls (events_since (sim_world [])
      (customize_grub (sim_os_no_write (fun _ => 0)) (init_config "/root")
        (sim_world [])).2) = [] :=
  ⟨by decide,
    (script_write_failure (sim_os_no_write (fun _ => 0)) (init_config "/root")
      (sim_world [])).1 (by decide)⟩

/-- C17: in each of the four script stages, when `write_file` of the script
returns `0`, the commands handed to `system` are exactly three, in this
order: the copy into the chroot, the `chmod`, the run under `chroot`; and the
stage returns `0` when the status of the third is `0` and `1` otherwise,
whatever the statuses of the first two. -/
theorem script_stage_commands (os : OS σ) (config : BuildConfig) (w : World σ) :
    ((write_file os "/tmp/setup-grub.sh" grub_setup
        (printf (COLOR_YELLOW ++ "Настройка кастомного GRUB с логотипом Луны...\n" ++
          COLOR_RESET) w)).1 = 0 →
      ∃ st1 st2 st3,
        system_calls (events_since w (customize_grub os config w).2) =
          [(snprintf 512 ("cp " ++ "/tmp/setup-grub.sh" ++ " " ++ config.chroot ++ "/tmp/"), st1),
           (snprintf 512 ("chmod +x " ++ config.chroot ++ "/tmp/setup-grub.sh"), st2),
           (snprintf 512 ("chroot " ++ config.chroot ++ " /bin/bash /tmp/setup-grub.sh"), st3)] ∧
        (customize_grub os config w).1 = (if st3 = 0 then 0 else 1)) ∧
    ((write_file os "/tmp/setup-kde.sh" kde_setup
        (printf (COLOR_YELLOW ++ "Установка KDE Plasma с Wayland...\n" ++ COLOR_RESET) w)).1 = 0 →
      ∃ st1 st2 st3,
        system_calls (events_since w (install_kde_plasma os config w).2) =
          [(snprintf 512 ("cp " ++ "/tmp/setup-kde.sh" ++ " " ++ config.chroot ++ "/tmp/"), st1),
           (snprintf 512 ("chmod +x " ++ config.chroot ++ "/tmp/setup-kde.sh"), st2),
           (snprintf 512 ("chroot " ++ config.chroot ++ " /bin/bash /tmp/setup-kde.sh"), st3)] ∧
        (install_kde_plasma os config w).1 = (if st3 = 0 then 0 else 1)) ∧
    ((write_file os "/tmp/setup-calamares.sh" calamares_setup
        (printf (COLOR_YELLOW ++ "Установка Calamares...\n" ++ COLOR_RESET) w)).1 = 0 →
      ∃ st1 st2 st3,
        system_calls (events_since w (install_calamares os config w).2) =
          [(snprintf 512 ("cp " ++ "/tmp/setup-calamares.sh" ++ " " ++ config.chroot ++ "/tmp/"),
            st1),
           (snprintf 512 ("chmod +x " ++ config.chroot ++ "/tmp/setup-calamares.sh"), st2),
           (snprintf 512 ("chroot " ++ config.chroot ++ " /bin/bash /tmp/setup-calamares.sh"),
            st3)] ∧
        (install_calamares os config w).1 = (if st3 = 0 then 0 else 1)) ∧
    ((write_file os "/tmp/setup-software.sh" software_setup
        (printf (COLOR_YELLOW ++ "Установка дополнительного ПО...\n" ++ COLOR_RESET) w)).1 = 0 →
      ∃ st1 st2 st3,
        system_calls (events_since w (install_additional_software os config w).2) =
          [(snprintf 512 ("cp " ++ "/tmp/setup-software.sh" ++ " " ++ config.chroot ++ "/tmp/"),
            st1),
           (snprintf 512 ("chmod +x " ++ config.chroot ++ "/tmp/setup-software.sh"), st2),
           (snprintf 512 ("chroot " ++ config.chroot ++ " /bin/bash /tmp/setup-software.sh"),
            st3)] ∧
        (install_additional_software os config w).1 = (if st3 = 0 then 0 else 1)) := by
  refine ⟨?_, ?_, ?_, ?_⟩
  · rw [customize_grub_shape]
    exact (script_stage_spec os _ _ _ _ _ _ _ w).2.2
  · rw [install_kde_plasma_shape]
    exact (script_stage_spec os _ _ _ _ _ _ _ w).2.2
  · rw [install_calamares_shape]
    exact (script_stage_spec os _ _ _ _ _ _ _ w).2.2
  · rw [install_additional_software_shape]
    exact (script_stage_spec os _ _ _ _ _ _ _ w).2.2

/-- C17 at a concrete run: the copy and the `chmod` fail with status `256`,
the run under `chroot` exits with `0`; the three commands are run and the
stage returns `0`. -/
theorem script_stage_commands_witness :
    system_calls (events_since (sim_world [])
      (install_kde_plasma
        (sim_os (fun c => if "chroot ".data <+: c.data then 0 else 256))
        (init_config "/root") (sim_world [])).2) =
      [("cp /tmp/setup-kde.sh /root/luna-linux-build/chroot/tmp/", 256),
       ("chmod +x /root/luna-linux-build/chroot/tmp/setup-kde.sh", 256),
       ("chroot /root/luna-linux-build/chroot /bin/bash /tmp/setup-kde.sh", 0)] ∧
    (install_kde_plasma
      (sim_os (fun c => if "chroot ".data <+: c.data then 0 else 256))
      (init_config "/root") (sim_world [])).1 = 0 ∧
    ∃ st1 st2 st3,
      system_calls (events_since (sim_world [])
        (install_kde_plasma
          (sim_os (fun c => if "chroot ".data <+: c.data then 0 else 256))
          (init_config "/root") (sim_world [])).2) =
        [(snprintf 512 ("cp " ++ "/tmp/setup-kde.sh" ++ " " ++ (init_config "/root").chroot ++
            "/tmp/"), st1),
         (snprintf 512 ("chmod +x " ++ (init_config "/root").chroot ++ "/tmp/setup-kde.sh"), st2),
         (snprintf 512 ("chroot " ++ (init_config "/root").chroot ++
            " /bin/bash /tmp/setup-kde.sh"), st3)] ∧
      (install_kde_plasma
        (sim_os (fun c => if "chroot ".data <+: c.data then 0 else 256))
        (init_config "/root") (sim_world [])).1 = (if st3 = 0 then 0 else 1) :=
  ⟨by decide, by decide,
    (script_stage_commands (sim_os (fun c => if "chroot ".data <+: c.data then 0 else 256))
      (init_config "/root") (sim_world [])).2.1 (by decide)⟩

/-! ## Facts about cleanup -/

theorem parse_options_skip (argv0 : String) :
    ∀ (pre rest : List Char) (config : BuildConfig) (w : World σ),
      (∀ x ∈ pre, x = 'v' ∨ x = 'c') →
      parse_options argv0 (pre ++ rest) config w =
        parse_options argv0 rest
          { config with
            verbose := if 'v' ∈ pre then 1 else config.verbose
            clean_build := if 'c' ∈ pre then 1 else config.clean_build } w := by
  intro pre
  induction pre with
  | nil => intro rest config w _; simp
  | cons c pre ih =>
    intro rest config w h
    have hpre : ∀ x ∈ pre, x = 'v' ∨ x = 'c' := fun x hx => h x (List.mem_cons_of_mem _ hx)
    rcases h c (List.mem_cons_self _ _) with hc | hc
    · subst hc
      have hvc : ¬ 'c' = 'v' := by decide
      rw [List.cons_append, parse_options]
      simp only [if_true]
      rw [ih rest _ w hpre]
      congr 1
      by_cases h1 : 'v' ∈ pre <;> by_cases h2 : 'c' ∈ pre <;> simp [h1, h2, hvc]
    · subst hc
      have hcv : ¬ 'c' = 'v' := by decide
      have hvc : ¬ 'v' = 'c' := by decide
      rw [List.cons_append, parse_options]
      simp only [hcv, if_false, if_true]
      rw [ih rest _ w hpre]
      congr 1
      by_cases h1 : 'v' ∈ pre <;> by_cases h2 : 'c' ∈ pre <;> simp [h1, h2, hvc]

/-- C13: with `options` the values `getopt` returns, scanned left to right.
When the first one that is not `v` or `c` is `h`, `main` returns `0` having
printed only the four usage lines; when it is any other character, `main`
returns `1` having written only the unknown-option line to standard error.
In both cases no stage is called, the outside state is untouched and the
banner, which comes before the privilege check, is not printed.  When every
option is `v` or `c`, the loop runs to its end, leaves the world as it was,
and yields the initial configuration with `verbose` set exactly when `v`
occurs and `clean_build` set exactly when `c` occurs. -/
theorem option_parsing (stage : Nat → BuildConfig → World σ → Int × World σ) (os : OS σ)
    (home argv0 : String) (options : List Char) (w : World σ) :
    (∀ pre rest, options = pre ++ 'h' :: rest → (∀ x ∈ pre, x = 'v' ∨ x = 'c') →
      (main_with stage os home argv0 options w).1 = 0 ∧
      (main_with stage os home argv0 options w).2.log = [] ∧
      (main_with stage os home argv0 options w).2.world.sys = w.sys ∧
      (main_with stage os home argv0 options w).2.world.out = w.out ++
        [Event.stdout ("Использование: " ++ argv0 ++ " [опции]\n"),
         Event.stdout "  -v    Подробный вывод\n",
         Event.stdout "  -c    Полная очистка перед сборкой\n",
         Event.stdout "  -h    Эта справка\n"]) ∧
    (∀ pre c rest, options = pre ++ c :: rest → (∀ x ∈ pre, x = 'v' ∨ x = 'c') →
      c ≠ 'v' → c ≠ 'c' → c ≠ 'h' →
      (main_with stage os home argv0 options w).1 = 1 ∧
      (main_with stage os home argv0 options w).2.log = [] ∧
      (main_with stage os home argv0 options w).2.world.sys = w.sys ∧
      (main_with stage os home argv0 options w).2.world.out = w.out ++
        [Event.stderr ("Неизвестная опция: " ++ String.singleton c ++ "\n")]) ∧
    ((∀ x ∈ options, x = 'v' ∨ x = 'c') →
      parse_options argv0 options (init_config home) w =
        (none,
         { init_config home with
           verbose := if 'v' ∈ options then 1 else 0
           clean_build := if 'c' ∈ options then 1 else 0 },
         w)) := by
  refine ⟨?_, ?_, ?_⟩
  · intro pre rest hopt hpre
    have hp := parse_options_skip argv0 pre ('h' :: rest) (init_config home) w hpre
    rw [← hopt] at hp
    have hhv : ¬ 'h' = 'v' := by decide
    have hhc : ¬ 'h' = 'c' := by decide
    simp only [parse_options, hhv, hhc, if_false, if_true] at hp
    simp only [main_with, hp]
    simp [printf, World.emit]
  · intro pre c rest hopt hpre hv hc hh
    have hp := parse_options_skip argv0 pre (c :: rest) (init_config home) w hpre
    rw [← hopt] at hp
    simp only [parse_options, hv, hc, hh, if_false] at hp
    simp only [main_with, hp]
    simp [World.emit]
  · intro hall
    have hp := parse_options_skip argv0 options [] (init_config home) w hall
    rw [List.append_nil] at hp
    rw [hp]
    rfl

/-- C13 at a concrete command line: `-v -h -x` prints the usage and ends with
`0`; `-c -x -h` ends with `1`; `-v -c` sets both flags. -/
theorem option_parsing_witness :
    (main (sim_os (fun _ => 0)) "/root" "luna-builder" ['v', 'h', '?'] (sim_world [])).1 = 0 ∧
    (main (sim_os (fun _ => 0)) "/root" "luna-builder" ['c', '?', 'h'] (sim_world [])).1 = 1 ∧
    parse_options "luna-builder" ['v', 'c'] (init_config "/root") (sim_world []) =
      (none,
       { init_config "/root" with
         verbose := if 'v' ∈ ['v', 'c'] then 1 else 0
         clean_build := if 'c' ∈ ['v', 'c'] then 1 else 0 },
       sim_world []) :=
  ⟨((option_parsing (run_stage (sim_os (fun _ => 0))) (sim_os (fun _ => 0)) "/root"
      "luna-builder" ['v', 'h', '?'] (sim_world [])).1 ['v'] ['?'] rfl (by decide)).1,
    ((option_parsing (run_stage (sim_os (fun _ => 0))) (sim_os (fun _ => 0)) "/root"
      "luna-builder" ['c', '?', 'h'] (sim_world [])).2.1 ['c'] '?' ['h'] rfl (by decide)
      (by decide) (by decide) (by decide)).1,
    (option_parsing (run_stage (sim_os (fun _ => 0))) (sim_os (fun _ => 0)) "/root"
      "luna-builder" ['v', 'c'] (sim_world [])).2.2 (by decide)⟩

/-- C12, as the code has it: the id `main` checks is the one `getuid` returns,
the real user id.  In a run whose options are all `-v` or `-c` and whose real
user id is not `0`, `main` returns `1`, calls no stage and runs no command:
it prints the banner and the two lines telling to use `sudo`. -/
theorem privilege_check (stage : Nat → BuildConfig → World σ → Int × World σ) (os : OS σ)
    (home argv0 : String) (options : List Char) (w : World σ)
    (hopts : ∀ c ∈ options, c = 'v' ∨ c = 'c') (huid : os.getuid w.sys ≠ 0) :
    (main_with stage os home argv0 options w).1 = 1 ∧
    (main_with stage os home argv0 options w).2.log = [] ∧
    (main_with stage os home argv0 options w).2.world.sys = w.sys ∧
    (main_with stage os home argv0 options w).2.world.out = (print_banner w).out ++
      [Event.stdout (COLOR_RED ++ "Ошибка: программа должна запускаться с правами root\n" ++
        COLOR_RESET),
       Event.stdout ("Используйте: sudo " ++ argv0 ++ "\n")] := by
  obtain ⟨config, hp⟩ := parse_options_flags argv0 options (init_config home) w hopts
  simp only [main_with, hp, print_banner_sys, huid, ne_eq, not_false_eq_true, if_true]
  refine ⟨trivial, trivial, rfl, ?_⟩
  simp [printf, World.emit]

/-- C12 at a concrete run: real user id `1000`, options `-v -c`. -/
theorem privilege_check_witness :
    (∀ c ∈ ['v', 'c'], c = 'v' ∨ c = 'c') ∧
    (sim_os_user (fun _ => 0) 1000).getuid (sim_world []).sys ≠ 0 ∧
    (main (sim_os_user (fun _ => 0) 1000) "/home/luna" "luna-builder" ['v', 'c']
      (sim_world [])).1 = 1 ∧
    (main (sim_os_user (fun _ => 0) 1000) "/home/luna" "luna-builder" ['v', 'c']
      (sim_world [])).2.log = [] :=
  ⟨by decide, by decide,
    (privilege_check (run_stage (sim_os_user (fun _ => 0) 1000)) (sim_os_user (fun _ => 0) 1000)
      "/home/luna" "luna-builder" ['v', 'c'] (sim_world []) (by decide) (by decide)).1,
    (privilege_check (run_stage (sim_os_user (fun _ => 0) 1000)) (sim_os_user (fun _ => 0) 1000)
      "/home/luna" "luna-builder" ['v', 'c'] (sim_world []) (by decide) (by decide)).2.1⟩

/-- C12 fails for the effective user id: a process whose real user id is `0`
and whose effective user id is `1000` passes the check of `main`, which then
calls all ten stages and returns `0`. -/
theorem privilege_check_reads_real_uid :
    (⟨0, 1000⟩ : UserIds).effective ≠ 0 ∧
    (main (with_ids (sim_os_found (fun _ => 0) "/root/luna-linux-build/chroot/boot/vmlinuz-5.15.0\n"))
      "/root" "luna-builder" []
      { sys := ((⟨0, 1000⟩ : UserIds), []), out := [] }).1 = 0 ∧
    invoked (main (with_ids (sim_os_found (fun _ => 0)
        "/root/luna-linux-build/chroot/boot/vmlinuz-5.15.0\n"))
      "/root" "luna-builder" []
      { sys := ((⟨0, 1000⟩ : UserIds), []), out := [] }).2.log = List.range 10 := by
  decide

/-! ## Facts about the derived paths -/

theorem single_byte_mem (s : String) (h : single_byte s = true) :
    ∀ c ∈ s.data, c.toNat < 128 := by
  simpa [single_byte] using h

theorem single_byte_append (a b : String) (ha : single_byte a = true)
    (hb : single_byte b = true) : single_byte (a ++ b) = true := by
  simp only [single_byte, String.data_append, List.all_append, Bool.and_eq_true]
  exact ⟨ha, hb⟩

theorem snprintf_single (size : Nat) (text : String) (h : single_byte text = true) :
    (snprintf size text).data = text.data.take (size - 1) :=
  take_bytes_single _ (single_byte_mem text h) _

theorem single_byte_snprintf (size : Nat) (text : String) (h : single_byte text = true) :
    single_byte (snprintf size text) = true := by
  have hm := single_byte_mem text h
  rw [single_byte, snprintf_single size text h, List.all_eq_true]
  intro c hc
  exact decide_eq_true (hm c (List.mem_of_mem_take hc))

theorem strlen_single (s : String) (h : single_byte s = true) : strlen s = s.data.length :=
  byte_length_single _ (single_byte_mem s h)

theorem take_append_take {α : Type} (l m : List α) (n : Nat) :
    (l.take n ++ m).take n = (l ++ m).take n := by
  by_cases h : l.length ≤ n
  · rw [List.take_of_length_le h]
  · have hl : (l.take n).length = n := by
      rw [List.length_take]
      omega
    rw [List.take_append_of_le_length (by omega), List.take_take, Nat.min_self,
      List.take_append_of_le_length (by omega)]

/-- Two cuts in a row, on single-byte text, amount to one cut of the whole
text. -/
theorem snprintf_twice (size : Nat) (a b c : String) (ha : single_byte a = true)
    (hb : single_byte b = true) (hc : single_byte c = true) :
    (snprintf size (snprintf size (a ++ b) ++ c)).data =
      (a.data ++ (b.data ++ c.data)).take (size - 1) := by
  have hab := single_byte_append a b ha hb
  have h1 := single_byte_snprintf size (a ++ b) hab
  rw [snprintf_single size _ (single_byte_append _ c h1 hc), String.data_append,
    snprintf_single size _ hab, String.data_append, take_append_take, List.append_assoc]

/-- Once a single-byte text fills the buffer, text appended to it is cut off
whole. -/
theorem snprintf_full (size : Nat) (text more : String) (ht : single_byte text = true)
    (hm : single_byte more = true) (h : size - 1 ≤ strlen text) :
    snprintf size (snprintf size text ++ more) = snprintf size text := by
  apply String.ext
  have h1 := single_byte_snprintf size text ht
  rw [strlen_single text ht] at h
  rw [snprintf_single size _ (single_byte_append _ more h1 hm), String.data_append,
    snprintf_single size text ht, take_append_take,
    List.take_append_of_le_length h]

/-- C14, as the code has it.  Every path field is what `snprintf` leaves in a
256-byte buffer, at most 255 bytes.  In `init_config` the work directory is
the home directory followed by `/luna-linux-build` when the home directory
has at most 238 bytes, and the chroot, image and iso directories are the work
directory followed by `/chroot`, `/image` and `/iso` when it has at most 231,
232 and 234 bytes.  For a home directory of single-byte characters, of any
length, the four fields are the first 255 bytes of the home directory followed
by `/luna-linux-build`, `/luna-linux-build/chroot`, `/luna-linux-build/image`
and `/luna-linux-build/iso`, and from 238 bytes on the three derived
directories are equal to the work directory.  In `config_init` the same holds
with `/luna-build`: the bounds are 244 bytes for the work directory, 237 and
240 for the chroot and iso directories. -/
theorem derived_paths (home : String) :
    ((init_config home).workdir = snprintf 256 (home ++ "/luna-linux-build") ∧
      (init_config home).chroot = snprintf 256 ((init_config home).workdir ++ "/chroot") ∧
      (init_config home).imagedir = snprintf 256 ((init_config home).workdir ++ "/image") ∧
      (init_config home).isodir = snprintf 256 ((init_config home).workdir ++ "/iso")) ∧
    (strlen (init_config home).workdir ≤ 255 ∧ strlen (init_config home).chroot ≤ 255 ∧
      strlen (init_config home).imagedir ≤ 255 ∧ strlen (init_config home).isodir ≤ 255) ∧
    (strlen home + 17 ≤ 255 →
      (init_config home).workdir = home ++ "/luna-linux-build") ∧
    (strlen home + 24 ≤ 255 →
      (init_config home).chroot = (init_config home).workdir ++ "/chroot") ∧
    (strlen home + 23 ≤ 255 →
      (init_config home).imagedir = (init_config home).workdir ++ "/image") ∧
    (strlen home + 21 ≤ 255 →
      (init_config home).isodir = (init_config home).workdir ++ "/iso") ∧
    (single_byte home = true →
      strlen home = home.data.length ∧
      (init_config home).workdir.data = (home ++ "/luna-linux-build").data.take 255 ∧
      (init_config home).chroot.data = (home ++ "/luna-linux-build/chroot").data.take 255 ∧
      (init_config home).imagedir.data = (home ++ "/luna-linux-build/image").data.take 255 ∧
      (init_config home).isodir.data = (home ++ "/luna-linux-build/iso").data.take 255 ∧
      (255 ≤ strlen home + 17 →
        (init_config home).chroot = (init_config home).workdir ∧
        (init_config home).imagedir = (init_config home).workdir ∧
        (init_config home).isodir = (init_config home).workdir)) ∧
    ((ConfigModule.config_init home).work_dir = snprintf 256 (home ++ "/luna-build") ∧
      (ConfigModule.config_init home).chroot_dir =
        snprintf 256 ((ConfigModule.config_init home).work_dir ++ "/chroot") ∧
      (ConfigModule.config_init home).iso_dir =
        snprintf 256 ((ConfigModule.config_init home).work_dir ++ "/iso")) ∧
    (strlen (ConfigModule.config_init home).work_dir ≤ 255 ∧
      strlen (ConfigModule.config_init home).chroot_dir ≤ 255 ∧
      strlen (ConfigModule.config_init home).iso_dir ≤ 255) ∧
    (strlen home + 11 ≤ 255 →
      (ConfigModule.config_init home).work_dir = home ++ "/luna-build") ∧
    (strlen home + 18 ≤ 255 →
      (ConfigModule.config_init home).chroot_dir =
        (ConfigModule.config_init home).work_dir ++ "/chroot") ∧
    (strlen home + 15 ≤ 255 →
      (ConfigModule.config_init home).iso_dir =
        (ConfigModule.config_init home).work_dir ++ "/iso") ∧
    (single_byte home = true →
      (ConfigModule.config_init home).work_dir.data = (home ++ "/luna-build").data.take 255 ∧
      (ConfigModule.config_init home).chroot_dir.data =
        (home ++ "/luna-build/chroot").data.take 255 ∧
      (ConfigModule.config_init home).iso_dir.data =
        (home ++ "/luna-build/iso").data.take 255 ∧
      (255 ≤ strlen home + 11 →
        (ConfigModule.config_init home).chroot_dir = (ConfigModule.config_init home).work_dir ∧
        (ConfigModule.config_init home).iso_dir = (ConfigModule.config_init home).work_dir)) := by
  have l1 : strlen "/luna-linux-build" = 17 := by decide
  have l2 : strlen "/chroot" = 7 := by decide
  have l3 : strlen "/image" = 6 := by decide
  have l4 : strlen "/iso" = 4 := by decide
  have l5 : strlen "/luna-build" = 11 := by decide
  have s1 : single_byte "/luna-linux-build" = true := by decide
  have s2 : single_byte "/chroot" = true := by decide
  have s3 : single_byte "/image" = true := by decide
  have s4 : single_byte "/iso" = true := by decide
  have s5 : single_byte "/luna-build" = true := by decide
  have hcut : ∀ t : String, strlen (snprintf 256 t) ≤ 255 := fun t =>
    byte_length_take_bytes t.data 255
  have hw : strlen home + 17 ≤ 255 →
      snprintf 256 (home ++ "/luna-linux-build") = home ++ "/luna-linux-build" := fun h =>
    snprintf_fits 256 _ (by rw [strlen_append, l1]; omega)
  have hw2 : strlen home + 11 ≤ 255 →
      snprintf 256 (home ++ "/luna-build") = home ++ "/luna-build" := fun h =>
    snprintf_fits 256 _ (by rw [strlen_append, l5]; omega)
  refine ⟨⟨rfl, rfl, rfl, rfl⟩, ⟨hcut _, hcut _, hcut _, hcut _⟩, hw, ?_, ?_, ?_, ?_,
    ⟨rfl, rfl, rfl⟩, ⟨hcut _, hcut _, hcut _⟩, hw2, ?_, ?_, ?_⟩
  · intro h
    show snprintf 256 (snprintf 256 (home ++ "/luna-linux-build") ++ "/chroot") =
      snprintf 256 (home ++ "/luna-linux-build") ++ "/chroot"
    rw [hw (by omega)]
    exact snprintf_fits 256 _ (by rw [strlen_append, strlen_append, l1, l2]; omega)
  · intro h
    show snprintf 256 (snprintf 256 (home ++ "/luna-linux-build") ++ "/image") =
      snprintf 256 (home ++ "/luna-linux-build") ++ "/image"
    rw [hw (by omega)]
    exact snprintf_fits 256 _ (by rw [strlen_append, strlen_append, l1, l3]; omega)
  · intro h
    show snprintf 256 (snprintf 256 (home ++ "/luna-linux-build") ++ "/iso") =
      snprintf 256 (home ++ "/luna-linux-build") ++ "/iso"
    rw [hw (by omega)]
    exact snprintf_fits 256 _ (by rw [strlen_append, strlen_append, l1, l4]; omega)
  · intro hs
    have hfull : 255 ≤ strlen home + 17 →
        256 - 1 ≤ strlen (home ++ "/luna-linux-build") := by
      intro h
      rw [strlen_append, l1]
      omega
    have hsb := single_byte_append home _ hs s1
    refine ⟨strlen_single home hs, snprintf_single 256 _ hsb, ?_, ?_, ?_, fun h =>
      ⟨snprintf_full 256 _ _ hsb s2 (hfull h), snprintf_full 256 _ _ hsb s3 (hfull h),
        snprintf_full 256 _ _ hsb s4 (hfull h)⟩⟩
    · exact snprintf_twice 256 home _ _ hs s1 s2
    · exact snprintf_twice 256 home _ _ hs s1 s3
    · exact snprintf_twice 256 home _ _ hs s1 s4
  · intro h
    show snprintf 256 (snprintf 256 (home ++ "/luna-build") ++ "/chroot") =
      snprintf 256 (home ++ "/luna-build") ++ "/chroot"
    rw [hw2 (by omega)]
    exact snprintf_fits 256 _ (by rw [strlen_append, strlen_append, l5, l2]; omega)
  · intro h
    show snprintf 256 (snprintf 256 (home ++ "/luna-build") ++ "/iso") =
      snprintf 256 (home ++ "/luna-build") ++ "/iso"
    rw [hw2 (by omega)]
    exact snprintf_fits 256 _ (by rw [strlen_append, strlen_append, l5, l4]; omega)
  · intro hs
    have hfull : 255 ≤ strlen home + 11 → 256 - 1 ≤ strlen (home ++ "/luna-build") := by
      intro h
      rw [strlen_append, l5]
      omega
    have hsb := single_byte_append home _ hs s5
    refine ⟨snprintf_single 256 _ hsb, ?_, ?_, fun h =>
      ⟨snprintf_full 256 _ _ hsb s2 (hfull h), snprintf_full 256 _ _ hsb s4 (hfull h)⟩⟩
    · exact snprintf_twice 256 home _ _ hs s5 s2
    · exact snprintf_twice 256 home _ _ hs s5 s4

set_option maxRecDepth 100000 in
/-- C14 at concrete home directories: a short one, where every field is whole,
and one of 235 bytes, where the chroot directory is the first 255 bytes of the
whole text. -/
theorem derived_paths_witness :
    (init_config "/home/luna").chroot = "/home/luna/luna-linux-build/chroot" ∧
    (init_config "/home/luna").chroot = (init_config "/home/luna").workdir ++ "/chroot" ∧
    (ConfigModule.config_init "/home/luna").iso_dir =
      (ConfigModule.config_init "/home/luna").work_dir ++ "/iso" ∧
    (init_config mid_home).chroot.data =
      (mid_home ++ "/luna-linux-build/chroot").data.take 255 :=
  ⟨by decide, (derived_paths "/home/luna").2.2.2.1 (by decide),
    (derived_paths "/home/luna").2.2.2.2.2.2.2.2.2.2.2.1 (by decide),
    ((derived_paths mid_home).2.2.2.2.2.2.1 (by decide)).2.2.1⟩

set_option maxRecDepth 100000 in
/-- C14 fails for a long home directory.  With 240 bytes `init_config` cuts the
work directory to 255 bytes and the chroot, image and iso directories are
all equal to it; in `config_init` the chroot directory is cut short of
`/chroot`.  With 235 bytes the work directory is whole (252 bytes) and the
chroot directory is the work directory followed by `/ch` only. -/
theorem derived_paths_truncated :
    strlen long_home = 240 ∧
    strlen (init_config long_home).workdir = 255 ∧
    (init_config long_home).chroot = (init_config long_home).workdir ∧
    (init_config long_home).imagedir = (init_config long_home).workdir ∧
    (init_config long_home).isodir = (init_config long_home).workdir ∧
    (init_config long_home).chroot ≠ (init_config long_home).workdir ++ "/chroot" ∧
    (ConfigModule.config_init long_home).chroot_dir ≠
      (ConfigModule.config_init long_home).work_dir ++ "/chroot" ∧
    strlen mid_home = 235 ∧
    (init_config mid_home).workdir = mid_home ++ "/luna-linux-build" ∧
    (init_config mid_home).chroot = (init_config mid_home).workdir ++ "/ch" ∧
    (init_config mid_home).chroot ≠ (init_config mid_home).workdir ++ "/chroot" := by
  decide

/-! ## Facts about the final report -/

theorem to_double_exact (n : Nat) (h : n < 2 ^ 53) : to_double n = n := by
  unfold to_double
  rw [if_pos h]

theorem size_hundredths_nearest (n : Nat) (h : n < 2 ^ 53) :
    100 * n ≤ size_hundredths n * 2 ^ 20 + 2 ^ 19 ∧
    size_hundredths n * 2 ^ 20 ≤ 100 * n + 2 ^ 19 := by
  have hd := Nat.div_add_mod (n * 100) (2 ^ 20)
  have hm := Nat.mod_lt (n * 100) (show 0 < 2 ^ 20 by norm_num)
  simp only [size_hundredths, to_double_exact n h]
  split <;> omega

theorem size_hundredths_tie (n : Nat) (h : n < 2 ^ 53) (ht : 100 * n % 2 ^ 20 = 2 ^ 19) :
    size_hundredths n % 2 = 0 := by
  have hm : n * 100 % 2 ^ 20 = 2 ^ 19 := by rw [Nat.mul_comm]; exact ht
  simp only [size_hundredths, to_double_exact n h, hm]
  generalize n * 100 / 2 ^ 20 = q
  clear hm ht h
  split
  · omega
  · rename_i hq
    have hq1 : ¬ q % 2 = 1 := fun h1 => hq (Or.inr ⟨trivial, h1⟩)
    omega

theorem main_with_success (stage : Nat → BuildConfig → World σ → Int × World σ)
    (os : OS σ) (home argv0 : String) (options : List Char) (w : World σ)
    (hopts : ∀ c ∈ options, c = 'v' ∨ c = 'c') (huid : os.getuid w.sys = 0) :
    ∃ config,
      (main_with stage os home argv0 options w).1 =
        (run_pipeline stage config (print_start os (print_banner w))).1 ∧
      ((run_pipeline stage config (print_start os (print_banner w))).1 = 0 →
        (main_with stage os home argv0 options w).2.world =
          success_report os config
            (run_pipeline stage config (print_start os (print_banner w))).2.world) := by
  obtain ⟨config, hp⟩ := parse_options_flags argv0 options (init_config home) w hopts
  refine ⟨config, ?_⟩
  simp only [main_with, hp, print_banner_sys, huid, ne_eq, not_true_eq_false, if_false]
  split
  · exact ⟨rfl, fun _ => rfl⟩
  · rename_i hne
    exact ⟨rfl, fun h0 => absurd h0 hne⟩

/-- C15, as the code has it: the final report prints, after the path of the
image, the line `Размер: x MB` when `stat` gives a size `n`, and no such line
when `stat` fails; `x` is `size_mb_text n`, the hundredths
`size_hundredths n` written with two decimals.  For `n` below `2^53`, where
the conversion of the size to `double` is exact, these hundredths are a
nearest hundredth of `n / 1048576`, the even one when `n / 1048576` lies
midway between two hundredths; for `n = 734003200` the text is `700.00`.
A run of `main` that reaches the step loop returns the result of the loop and,
when that is `0`, ends with this report whether or not `stat` succeeds. -/
theorem size_report (stage : Nat → BuildConfig → World σ → Int × World σ) (os : OS σ)
    (config : BuildConfig) (w : World σ) (home argv0 : String) (options : List Char) :
    (∀ n, os.stat_size config.output_iso w.sys = some n →
      events_since w (success_report os config w) =
        [Event.stdout (COLOR_GREEN ++ "\n" ++ rule 43 ++ "\n"),
         Event.stdout "Сборка Luna Linux успешно завершена!\n",
         Event.stdout ("ISO файл: " ++ config.output_iso ++ "\n"),
         Event.stat config.output_iso (some n),
         Event.stdout ("Размер: " ++ size_mb_text n ++ " MB\n"),
         Event.stdout (rule 43 ++ "\n" ++ COLOR_RESET),
         Event.stdout (COLOR_YELLOW ++ "\nДля записи на USB используйте:\n" ++ COLOR_RESET),
         Event.stdout ("dd if=\"" ++ config.output_iso ++
           "\" of=/dev/sdX bs=4M status=progress && sync\n"),
         Event.stdout (COLOR_YELLOW ++ "\nИли используйте Etcher/Rufus/Ventoy\n" ++
           COLOR_RESET)]) ∧
    (os.stat_size config.output_iso w.sys = none →
      events_since w (success_report os config w) =
        [Event.stdout (COLOR_GREEN ++ "\n" ++ rule 43 ++ "\n"),
         Event.stdout "Сборка Luna Linux успешно завершена!\n",
         Event.stdout ("ISO файл: " ++ config.output_iso ++ "\n"),
         Event.stat config.output_iso none,
         Event.stdout (rule 43 ++ "\n" ++ COLOR_RESET),
         Event.stdout (COLOR_YELLOW ++ "\nДля записи на USB используйте:\n" ++ COLOR_RESET),
         Event.stdout ("dd if=\"" ++ config.output_iso ++
           "\" of=/dev/sdX bs=4M status=progress && sync\n"),
         Event.stdout (COLOR_YELLOW ++ "\nИли используйте Etcher/Rufus/Ventoy\n" ++
           COLOR_RESET)]) ∧
    (∀ n, size_mb_text n =
      toString (size_hundredths n / 100) ++ "." ++ toString (size_hundredths n % 100 / 10) ++
        toString (size_hundredths n % 10)) ∧
    (∀ n, n < 2 ^ 53 →
      100 * n ≤ size_hundredths n * 2 ^ 20 + 2 ^ 19 ∧
      size_hundredths n * 2 ^ 20 ≤ 100 * n + 2 ^ 19) ∧
    size_mb_text 734003200 = "700.00" ∧
    ((∀ c ∈ options, c = 'v' ∨ c = 'c') → os.getuid w.sys = 0 →
      ∃ config1,
        (main_with stage os home argv0 options w).1 =
          (run_pipeline stage config1 (print_start os (print_banner w))).1 ∧
        ((run_pipeline stage config1 (print_start os (print_banner w))).1 = 0 →
          (main_with stage os home argv0 options w).2.world =
            success_report os config1
              (run_pipeline stage config1 (print_start os (print_banner w))).2.world)) ∧
    (∀ n, n < 2 ^ 53 → 100 * n % 2 ^ 20 = 2 ^ 19 → size_hundredths n % 2 = 0) := by
  refine ⟨?_, ?_, fun _ => rfl, size_hundredths_nearest, by decide,
    main_with_success stage os home argv0 options w, size_hundredths_tie⟩
  · intro n hn
    apply events_since_append
    simp [success_report, call_stat, printf, World.emit, hn]
  · intro hn
    apply events_since_append
    simp [success_report, call_stat, printf, World.emit, hn]

/-- C15 at a concrete run: the image is there with 734003200 bytes and the
report prints `Размер: 700.00 MB`. -/
theorem size_report_witness :
    Event.stdout "Размер: 700.00 MB\n" ∈
      (success_report
        { sim_os (fun _ => 0) with stat_size := fun _ _ => some 734003200 }
        (init_config "/root") (sim_world [])).out ∧
    100 * 734003200 ≤ size_hundredths 734003200 * 2 ^ 20 + 2 ^ 19 ∧
    size_hundredths 734003200 * 2 ^ 20 ≤ 100 * 734003200 + 2 ^ 19 :=
  ⟨by decide,
    (size_report (run_stage (sim_os (fun _ => 0))) (sim_os (fun _ => 0)) (init_config "/root")
      (sim_world []) "/root" "luna-builder" []).2.2.2.1 734003200 (by decide)⟩

/-- C15 fails for a very large file: a size of `2^54 + 2^17 + 1` bytes is not
a `double`; it is converted to `2^54 + 2^17`, whose quotient by `1048576` is
`17179869184.125`, printed as `17179869184.12`, while the size divided by
`1048576` lies above that half and rounds to `17179869184.13`. -/
theorem size_report_large_file :
    to_double 18014398509613057 = 18014398509613056 ∧
    size_mb_text 18014398509613057 = "17179869184.12" ∧
    size_hundredths 18014398509613057 = 1717986918412 ∧
    1717986918412 * 2 ^ 20 + 2 ^ 19 < 100 * 18014398509613057 := by
  have hlog : Nat.log2 18014398509613057 = 54 := by
    rw [Nat.log2_eq_log_two]
    exact (Nat.log_eq_iff (by norm_num)).mpr ⟨by norm_num, by norm_num⟩
  have h1 : to_double 18014398509613057 = 18014398509613056 := by
    simp [to_double, hlog]
  have h2 : size_hundredths 18014398509613057 = 1717986918412 := by
    norm_num [size_hundredths, h1]
  have h3 : size_mb_text 18014398509613057 = "17179869184.12" := by
    simp only [size_mb_text, h2]
    decide
  exact ⟨h1, h3, h2, by decide⟩

/-! ## Facts about the kernel and initrd searches -/

theorem takeWhile_with_stop {α : Type} (p : α → Bool) :
    ∀ l : List α,
      (l.takeWhile p ++ (l.drop (l.takeWhile p).length).take 1).takeWhile p =
        l.takeWhile p := by
  intro l
  induction l with
  | nil => simp
  | cons a l ih =>
    by_cases ha : p a = true
    · simp only [List.takeWhile, ha, List.length_cons, List.drop_succ_cons, List.cons_append]
      rw [ih]
    · simp [List.takeWhile, ha]

theorem selected_path_spec (output : String) :
    (output = "" → selected_path output = none) ∧
    (output ≠ "" → selected_path output = some (snprintf 512 (first_line output))) := by
  constructor
  · intro h
    subst h
    rfl
  · intro h
    cases hd : output.data with
    | nil => exact absurd (String.ext hd) h
    | cons c cs =>
      have hf : fgets 512 output =
          some ⟨(take_bytes (512 - 1) (c :: cs)).takeWhile (fun x => x != '\n') ++
            ((take_bytes (512 - 1) (c :: cs)).drop
              ((take_bytes (512 - 1) (c :: cs)).takeWhile (fun x => x != '\n')).length).take 1⟩ := by
        simp only [fgets, hd]
      simp only [selected_path, hf, Option.map_some', cut_at_newline, strcspn1, snprintf,
        first_line, hd]
      rw [takeWhile_with_stop, takeWhile_take_bytes]
      congr 2
      rw [List.take_append_of_le_length (le_refl _), List.take_length]

theorem snprintf_short (text : String) (h : strlen text ≤ 511) : snprintf 512 text = text :=
  snprintf_fits 512 text h

theorem call_popen_fst (os : OS σ) (cmd : String) (w : World σ) :
    (call_popen os cmd w).1 = (os.popen_r cmd w.sys).1 := rfl

theorem call_popen_out (os : OS σ) (cmd : String) (w : World σ) :
    (call_popen os cmd w).2.out = w.out ++ [Event.popen cmd (os.popen_r cmd w.sys).1] := rfl

theorem call_pclose_out (os : OS σ) (cmd : String) (w : World σ) :
    (call_pclose os cmd w).out = w.out ++ [Event.pclose cmd] := rfl

theorem selected_none_iff (output : String) :
    selected_path output = none ↔ fgets 512 output = none := by
  simp [selected_path]

theorem selected_some (output path : String) (h : selected_path output = some path) :
    ∃ line, fgets 512 output = some line ∧ cut_at_newline line = path := by
  simp only [selected_path, Option.map_eq_some'] at h
  exact h

theorem prepare_initrd_cases (os : OS σ) (config : BuildConfig) (w4 : World σ) :
    ((os.popen_r (find_initrd_cmd config) w4.sys).1 = none →
      prepare_initrd os config w4 = (1, (call_popen os (find_initrd_cmd config) w4).2)) ∧
    (∀ output, (os.popen_r (find_initrd_cmd config) w4.sys).1 = some output →
      selected_path output = none →
      prepare_initrd os config w4 =
        (1, call_pclose os (find_initrd_cmd config)
          (call_popen os (find_initrd_cmd config) w4).2)) ∧
    (∀ output path, (os.popen_r (find_initrd_cmd config) w4.sys).1 = some output →
      selected_path output = some path →
      ∃ more,
        (prepare_initrd os config w4).2.out =
          (execute_command os (cp_initrd_cmd config path) config.verbose
            (call_pclose os (find_initrd_cmd config)
              (call_popen os (find_initrd_cmd config) w4).2)).2.out ++ more) := by
  refine ⟨?_, ?_, ?_⟩
  · intro h
    have h1 := call_popen_fst os (find_initrd_cmd config) w4
    rw [h] at h1
    simp only [prepare_initrd]
    simp only [find_initrd_cmd] at h1 ⊢
    simp [h1]
  · intro output h hs
    have h1 := call_popen_fst os (find_initrd_cmd config) w4
    rw [h] at h1
    have h2 := (selected_none_iff output).mp hs
    simp only [prepare_initrd]
    simp only [find_initrd_cmd] at h1 ⊢
    simp [h1, h2]
  · intro output path h hs
    have h1 := call_popen_fst os (find_initrd_cmd config) w4
    rw [h] at h1
    obtain ⟨line, h2, h3⟩ := selected_some output path hs
    simp only [prepare_initrd]
    simp only [find_initrd_cmd, cp_initrd_cmd] at h1 ⊢
    simp only [h1, h2, h3]
    generalize (execute_command os
      (snprintf 512 ("cp " ++ path ++ " " ++ config.imagedir ++ "/initrd")) config.verbose _) = r7
    split
    · exact ⟨[], by simp⟩
    · refine ⟨?more, ?heq⟩
      case heq =>
        rw [execute_command_out, printf_out, List.append_assoc, List.append_assoc]
        exact rfl

theorem prepare_initrd_extends (os : OS σ) (config : BuildConfig) (w4 : World σ) :
    ∃ more, (prepare_initrd os config w4).2.out = w4.out ++ more := by
  obtain ⟨h1, h2, h3⟩ := prepare_initrd_cases os config w4
  cases hp : (os.popen_r (find_initrd_cmd config) w4.sys).1 with
  | none =>
    rw [h1 hp]
    exact ⟨_, call_popen_out os _ w4⟩
  | some output =>
    cases hs : selected_path output with
    | none =>
      rw [h2 output hp hs]
      exact ⟨_, by rw [call_pclose_out, call_popen_out, List.append_assoc]⟩
    | some path =>
      obtain ⟨more, hm⟩ := h3 output path hp hs
      rw [hm, execute_command_out, call_pclose_out, call_popen_out]
      refine ⟨?more, ?heq⟩
      case heq =>
        simp only [List.append_assoc]
        exact rfl

theorem prepare_iso_files_cases (os : OS σ) (config : BuildConfig) (w : World σ) :
    ((os.popen_r (find_kernel_cmd config) w.sys).1 = none →
      prepare_iso_files os config w =
        (1, (call_popen os (find_kernel_cmd config)
          (printf (COLOR_YELLOW ++ "Подготовка файлов для ISO...\n" ++ COLOR_RESET) w)).2)) ∧
    (∀ output, (os.popen_r (find_kernel_cmd config) w.sys).1 = some output →
      selected_path output = none →
      prepare_iso_files os config w =
        (1, call_pclose os (find_kernel_cmd config)
          (call_popen os (find_kernel_cmd config)
            (printf (COLOR_YELLOW ++ "Подготовка файлов для ISO...\n" ++ COLOR_RESET) w)).2)) ∧
    (∀ output path, (os.popen_r (find_kernel_cmd config) w.sys).1 = some output →
      selected_path output = some path →
      ((execute_command os (cp_kernel_cmd config path) config.verbose
          (call_pclose os (find_kernel_cmd config)
            (call_popen os (find_kernel_cmd config)
              (printf (COLOR_YELLOW ++ "Подготовка файлов для ISO...\n" ++ COLOR_RESET)
                w)).2)).1 ≠ 0 →
        prepare_iso_files os config w =
          (1, (execute_command os (cp_kernel_cmd config path) config.verbose
            (call_pclose os (find_kernel_cmd config)
              (call_popen os (find_kernel_cmd config)
                (printf (COLOR_YELLOW ++ "Подготовка файлов для ISO...\n" ++ COLOR_RESET)
                  w)).2)).2)) ∧
      ((execute_command os (cp_kernel_cmd config path) config.verbose
          (call_pclose os (find_kernel_cmd config)
            (call_popen os (find_kernel_cmd config)
              (printf (COLOR_YELLOW ++ "Подготовка файлов для ISO...\n" ++ COLOR_RESET)
                w)).2)).1 = 0 →
        prepare_iso_files os config w =
          prepare_initrd os config
            (execute_command os (cp_kernel_cmd config path) config.verbose
              (call_pclose os (find_kernel_cmd config)
                (call_popen os (find_kernel_cmd config)
                  (printf (COLOR_YELLOW ++ "Подготовка файлов для ISO...\n" ++ COLOR_RESET)
                    w)).2)).2)) := by
  have hfst := call_popen_fst os (find_kernel_cmd config)
    (printf (COLOR_YELLOW ++ "Подготовка файлов для ISO...\n" ++ COLOR_RESET) w)
  rw [printf_sys] at hfst
  refine ⟨?_, ?_, ?_⟩
  · intro h
    rw [h] at hfst
    simp only [prepare_iso_files]
    simp only [find_kernel_cmd] at hfst ⊢
    simp [hfst]
  · intro output h hs
    rw [h] at hfst
    have h2 := (selected_none_iff output).mp hs
    simp only [prepare_iso_files]
    simp only [find_kernel_cmd] at hfst ⊢
    simp [hfst, h2]
  · intro output path h hs
    rw [h] at hfst
    obtain ⟨line, h2, h3⟩ := selected_some output path hs
    constructor
    · intro hne
      simp only [prepare_iso_files]
      simp only [find_kernel_cmd, cp_kernel_cmd] at hfst hne ⊢
      simp only [hfst, h2, h3]
      rw [if_pos hne]
    · intro h0
      simp only [prepare_iso_files]
      simp only [find_kernel_cmd, cp_kernel_cmd] at hfst h0 ⊢
      simp only [hfst, h2, h3]
      rw [if_neg (by rw [h0]; simp)]
      rfl

theorem system_calls_cons_execute (pre : List Event) (cmd : String) (v status : Int)
    (more : List Event) (hpre : system_calls pre = []) :
    system_calls (pre ++ (((if v ≠ 0 then [Event.stdout (echo_line cmd)] else []) ++
        [Event.system cmd status] ++
        (if status ≠ 0 ∧ v = 0 then [Event.stdout (error_line cmd)] else [])) ++ more)) =
      (cmd, status) :: system_calls more := by
  rw [system_calls_append, system_calls_append, system_calls_execute, hpre]
  rfl

theorem system_calls_after (os : OS σ) (w w3 r : World σ) (pre more : List Event)
    (cmd : String) (v : Int) (hw3 : w3.out = w.out ++ pre) (hpre : system_calls pre = [])
    (hr : r.out = (execute_command os cmd v w3).2.out ++ more) :
    ∃ st rest, system_calls (events_since w r) = (cmd, st) :: rest := by
  refine ⟨(os.system cmd w3.sys).1, system_calls more, ?_⟩
  rw [← system_calls_cons_execute pre cmd v (os.system cmd w3.sys).1 more hpre]
  congr 1
  apply events_since_append
  rw [hr, execute_command_out, hw3]
  simp only [List.append_assoc]

theorem search_stage_facts (os : OS σ) (config : BuildConfig) (w : World σ) :
    selected_path "" = none ∧
    (∀ output, output ≠ "" →
      selected_path output = some (snprintf 512 (first_line output))) ∧
    (∀ output, output ≠ "" → strlen (first_line output) ≤ 511 →
      selected_path output = some (first_line output)) ∧
    (∀ output, (os.popen_r (find_kernel_cmd config) w.sys).1 = some output →
      (selected_path output = none →
        (prepare_iso_files os config w).1 = 1 ∧
        system_calls (events_since w (prepare_iso_files os config w).2) = []) ∧
      (∀ path, selected_path output = some path →
        (∃ st more, system_calls (events_since w (prepare_iso_files os config w).2) =
          (cp_kernel_cmd config path, st) :: more) ∧
        ((execute_command os (cp_kernel_cmd config path) config.verbose
            (call_pclose os (find_kernel_cmd config)
              (call_popen os (find_kernel_cmd config)
                (printf (COLOR_YELLOW ++ "Подготовка файлов для ISO...\n" ++ COLOR_RESET)
                  w)).2)).1 = 0 →
          prepare_iso_files os config w =
            prepare_initrd os config
              (execute_command os (cp_kernel_cmd config path) config.verbose
                (call_pclose os (find_kernel_cmd config)
                  (call_popen os (find_kernel_cmd config)
                    (printf (COLOR_YELLOW ++ "Подготовка файлов для ISO...\n" ++ COLOR_RESET)
                      w)).2)).2))) ∧
    (∀ (w4 : World σ) output,
      (os.popen_r (find_initrd_cmd config) w4.sys).1 = some output →
      (selected_path output = none →
        (prepare_initrd os config w4).1 = 1 ∧
        system_calls (events_since w4 (prepare_initrd os config w4).2) = []) ∧
      (∀ path, selected_path output = some path →
        ∃ st more, system_calls (events_since w4 (prepare_initrd os config w4).2) =
          (cp_initrd_cmd config path, st) :: more)) := by
  refine ⟨rfl, fun output h => (selected_path_spec output).2 h, ?_, ?_, ?_⟩
  · intro output h hlen
    rw [(selected_path_spec output).2 h, snprintf_short _ hlen]
  · intro output hp
    obtain ⟨_, h2, h3⟩ := prepare_iso_files_cases os config w
    constructor
    · intro hs
      rw [h2 output hp hs]
      refine ⟨rfl, ?_⟩
      have hev : events_since w (call_pclose os (find_kernel_cmd config)
          (call_popen os (find_kernel_cmd config)
            (printf (COLOR_YELLOW ++ "Подготовка файлов для ISO...\n" ++ COLOR_RESET) w)).2) =
          [Event.stdout (COLOR_YELLOW ++ "Подготовка файлов для ISO...\n" ++ COLOR_RESET),
           Event.popen (find_kernel_cmd config) (os.popen_r (find_kernel_cmd config) w.sys).1,
           Event.pclose (find_kernel_cmd config)] := by
        apply events_since_append
        rw [call_pclose_out, call_popen_out, printf_out, printf_sys]
        simp
      rw [hev]
      rfl
    · intro path hs
      obtain ⟨hfail, hok⟩ := h3 output path hp hs
      refine ⟨?_, hok⟩
      have hw3 : (call_pclose os (find_kernel_cmd config)
          (call_popen os (find_kernel_cmd config)
            (printf (COLOR_YELLOW ++ "Подготовка файлов для ISO...\n" ++ COLOR_RESET) w)).2).out =
          w.out ++
          [Event.stdout (COLOR_YELLOW ++ "Подготовка файлов для ISO...\n" ++ COLOR_RESET),
           Event.popen (find_kernel_cmd config) (os.popen_r (find_kernel_cmd config) w.sys).1,
           Event.pclose (find_kernel_cmd config)] := by
        rw [call_pclose_out, call_popen_out, printf_out, printf_sys]
        simp
      by_cases h0 : (execute_command os (cp_kernel_cmd config path) config.verbose
          (call_pclose os (find_kernel_cmd config)
            (call_popen os (find_kernel_cmd config)
              (printf (COLOR_YELLOW ++ "Подготовка файлов для ISO...\n" ++ COLOR_RESET)
                w)).2)).1 = 0
      · obtain ⟨more, hm⟩ := prepare_initrd_extends os config
          (execute_command os (cp_kernel_cmd config path) config.verbose
            (call_pclose os (find_kernel_cmd config)
              (call_popen os (find_kernel_cmd config)
                (printf (COLOR_YELLOW ++ "Подготовка файлов для ISO...\n" ++ COLOR_RESET)
                  w)).2)).2
        rw [hok h0]
        exact system_calls_after os w _ _ _ more _ config.verbose hw3 rfl hm
      · rw [hfail h0]
        exact system_calls_after os w _ _ _ [] _ config.verbose hw3 rfl (by simp)
  · intro w4 output hp
    obtain ⟨_, h2, h3⟩ := prepare_initrd_cases os config w4
    constructor
    · intro hs
      rw [h2 output hp hs]
      refine ⟨rfl, ?_⟩
      have hev : events_since w4 (call_pclose os (find_initrd_cmd config)
          (call_popen os (find_initrd_cmd config) w4).2) =
          [Event.popen (find_initrd_cmd config) (os.popen_r (find_initrd_cmd config) w4.sys).1,
           Event.pclose (find_initrd_cmd config)] := by
        apply events_since_append
        rw [call_pclose_out, call_popen_out]
        simp
      rw [hev]
      rfl
    · intro path hs
      obtain ⟨more, hm⟩ := h3 output path hp hs
      have hw6 : (call_pclose os (find_initrd_cmd config)
          (call_popen os (find_initrd_cmd config) w4).2).out =
          w4.out ++
          [Event.popen (find_initrd_cmd config) (os.popen_r (find_initrd_cmd config) w4.sys).1,
           Event.pclose (find_initrd_cmd config)] := by
        rw [call_pclose_out, call_popen_out]
        simp
      exact system_calls_after os w4 _ _ _ more _ config.verbose hw6 rfl hm

theorem cp_cmd_fits (path dest tail : String)
    (h : strlen path + strlen dest + strlen tail + 4 ≤ 511) :
    snprintf 512 ("cp " ++ path ++ " " ++ dest ++ tail) = "cp " ++ path ++ " " ++ dest ++ tail := by
  apply snprintf_fits
  have h1 : strlen "cp " = 3 := by decide
  have h2 : strlen " " = 1 := by decide
  rw [strlen_append, strlen_append, strlen_append, strlen_append, h1, h2]
  omega

theorem selected_path_single (output : String) (h : output ≠ "")
    (hs : single_byte output = true) :
    ∃ path, selected_path output = some path ∧
      path.data = (first_line output).data.take 511 := by
  refine ⟨_, (selected_path_spec output).2 h, ?_⟩
  apply take_bytes_single
  intro c hc
  exact single_byte_mem output hs c ((List.takeWhile_prefix _).subset hc)

/-- C11, as the code has it.  The path taken from the text of a search is what
`fgets` reads into 512 bytes, cut at the newline: nothing for an empty text,
else the first line when it has at most 511 bytes, and for a longer line of
single-byte text its first 511 bytes; it depends on the text alone.  The
search commands and the copy commands are the texts written out below, each
cut to 511 bytes: a copy command is the whole text `cp`, path, image
directory with `/vmlinuz` (or `/initrd`) when the path and the image directory
together have at most 499 (or 500) bytes.  In `prepare_iso_files`, an empty
kernel search makes the stage return `1` with no command run; otherwise the
first command run is the kernel copy for the path read, so for a first line
within the bound it names that whole line and its destination.  The initrd
part, run after a kernel copy with status `0`, behaves the same way with the
initrd copy. -/
theorem search_selection (os : OS σ) (config : BuildConfig) (w : World σ) :
    selected_path "" = none ∧
    (∀ output, output ≠ "" →
      selected_path output = some (snprintf 512 (first_line output))) ∧
    (∀ output, output ≠ "" → strlen (first_line output) ≤ 511 →
      selected_path output = some (first_line output)) ∧
    (∀ output, output ≠ "" → single_byte output = true →
      ∃ path, selected_path output = some path ∧
        path.data = (first_line output).data.take 511) ∧
    (find_kernel_cmd config =
        snprintf 512 ("find " ++ config.chroot ++ "/boot -name 'vmlinuz-*' -type f | head -1") ∧
      find_initrd_cmd config =
        snprintf 512 ("find " ++ config.chroot ++ "/boot -name 'initrd.img-*' -type f | head -1") ∧
      (∀ path, cp_kernel_cmd config path =
        snprintf 512 ("cp " ++ path ++ " " ++ config.imagedir ++ "/vmlinuz")) ∧
      (∀ path, cp_initrd_cmd config path =
        snprintf 512 ("cp " ++ path ++ " " ++ config.imagedir ++ "/initrd"))) ∧
    (∀ path, strlen path + strlen config.imagedir ≤ 499 →
      cp_kernel_cmd config path = "cp " ++ path ++ " " ++ config.imagedir ++ "/vmlinuz") ∧
    (∀ path, strlen path + strlen config.imagedir ≤ 500 →
      cp_initrd_cmd config path = "cp " ++ path ++ " " ++ config.imagedir ++ "/initrd") ∧
    (∀ output, (os.popen_r (find_kernel_cmd config) w.sys).1 = some output →
      (selected_path output = none →
        (prepare_iso_files os config w).1 = 1 ∧
        system_calls (events_since w (prepare_iso_files os config w).2) = []) ∧
      (∀ path, selected_path output = some path →
        (∃ st more, system_calls (events_since w (prepare_iso_files os config w).2) =
          (cp_kernel_cmd config path, st) :: more) ∧
        ((execute_command os (cp_kernel_cmd config path) config.verbose
            (call_pclose os (find_kernel_cmd config)
              (call_popen os (find_kernel_cmd config)
                (printf (COLOR_YELLOW ++ "Подготовка файлов для ISO...\n" ++ COLOR_RESET)
                  w)).2)).1 = 0 →
          prepare_iso_files os config w =
            prepare_initrd os config
              (execute_command os (cp_kernel_cmd config path) config.verbose
                (call_pclose os (find_kernel_cmd config)
                  (call_popen os (find_kernel_cmd config)
                    (printf (COLOR_YELLOW ++ "Подготовка файлов для ISO...\n" ++ COLOR_RESET)
                      w)).2)).2)) ∧
      (output ≠ "" → strlen (first_line output) + strlen config.imagedir ≤ 499 →
        ∃ st more, system_calls (events_since w (prepare_iso_files os config w).2) =
          ("cp " ++ first_line output ++ " " ++ config.imagedir ++ "/vmlinuz", st) :: more)) ∧
    (∀ (w4 : World σ) output,
      (os.popen_r (find_initrd_cmd config) w4.sys).1 = some output →
      (selected_path output = none →
        (prepare_initrd os config w4).1 = 1 ∧
        system_calls (events_since w4 (prepare_initrd os config w4).2) = []) ∧
      (∀ path, selected_path output = some path →
        ∃ st more, system_calls (events_since w4 (prepare_initrd os config w4).2) =
          (cp_initrd_cmd config path, st) :: more) ∧
      (output ≠ "" → strlen (first_line output) + strlen config.imagedir ≤ 500 →
        ∃ st more, system_calls (events_since w4 (prepare_initrd os config w4).2) =
          ("cp " ++ first_line output ++ " " ++ config.imagedir ++ "/initrd", st) :: more)) := by
  obtain ⟨h1, h2, h3, h4, h5⟩ := search_stage_facts os config w
  have l1 : strlen "/vmlinuz" = 8 := by decide
  have l2 : strlen "/initrd" = 7 := by decide
  have hk : ∀ path, strlen path + strlen config.imagedir ≤ 499 →
      cp_kernel_cmd config path = "cp " ++ path ++ " " ++ config.imagedir ++ "/vmlinuz" :=
    fun path h => cp_cmd_fits path config.imagedir "/vmlinuz" (by rw [l1]; omega)
  have hi : ∀ path, strlen path + strlen config.imagedir ≤ 500 →
      cp_initrd_cmd config path = "cp " ++ path ++ " " ++ config.imagedir ++ "/initrd" :=
    fun path h => cp_cmd_fits path config.imagedir "/initrd" (by rw [l2]; omega)
  refine ⟨h1, h2, h3, selected_path_single, ⟨rfl, rfl, fun _ => rfl, fun _ => rfl⟩, hk, hi,
    ?_, ?_⟩
  · intro output hp
    refine ⟨(h4 output hp).1, (h4 output hp).2, ?_⟩
    intro hne hlen
    have hs := h3 output hne (by omega)
    obtain ⟨st, more, hm⟩ := ((h4 output hp).2 _ hs).1
    exact ⟨st, more, by rw [hm, hk _ hlen]⟩
  · intro w4 output hp
    refine ⟨(h5 w4 output hp).1, (h5 w4 output hp).2, ?_⟩
    intro hne hlen
    have hs := h3 output hne (by omega)
    obtain ⟨st, more, hm⟩ := (h5 w4 output hp).2 _ hs
    exact ⟨st, more, by rw [hm, hi _ hlen]⟩

/-- C11 at a concrete search: two kernels are listed, the first line is the
path read, and the first command run copies it to the image directory. -/
theorem search_selection_witness :
    selected_path
      "/root/luna-linux-build/chroot/boot/vmlinuz-5.15.0\n/root/luna-linux-build/chroot/boot/vmlinuz-5.19.0\n" =
      some "/root/luna-linux-build/chroot/boot/vmlinuz-5.15.0" ∧
    (system_calls (events_since (sim_world [])
      (prepare_iso_files
        (sim_os_found (fun _ => 0)
          "/root/luna-linux-build/chroot/boot/vmlinuz-5.15.0\n/root/luna-linux-build/chroot/boot/vmlinuz-5.19.0\n")
        (init_config "/root") (sim_world [])).2)).head? =
      some ("cp /root/luna-linux-build/chroot/boot/vmlinuz-5.15.0 /root/luna-linux-build/image/vmlinuz",
        0) ∧
    (∃ st more, system_calls (events_since (sim_world [])
      (prepare_iso_files
        (sim_os_found (fun _ => 0)
          "/root/luna-linux-build/chroot/boot/vmlinuz-5.15.0\n/root/luna-linux-build/chroot/boot/vmlinuz-5.19.0\n")
        (init_config "/root") (sim_world [])).2) =
      ("cp " ++ first_line
          "/root/luna-linux-build/chroot/boot/vmlinuz-5.15.0\n/root/luna-linux-build/chroot/boot/vmlinuz-5.19.0\n" ++
        " " ++ (init_config "/root").imagedir ++ "/vmlinuz", st) :: more) :=
  ⟨((search_selection (sim_os (fun _ => 0)) (init_config "/root") (sim_world [])).2.2.1
      "/root/luna-linux-build/chroot/boot/vmlinuz-5.15.0\n/root/luna-linux-build/chroot/boot/vmlinuz-5.19.0\n"
      (by decide) (by decide)).trans (by decide),
    by decide,
    ((search_selection
        (sim_os_found (fun _ => 0)
          "/root/luna-linux-build/chroot/boot/vmlinuz-5.15.0\n/root/luna-linux-build/chroot/boot/vmlinuz-5.19.0\n")
        (init_config "/root") (sim_world [])).2.2.2.2.2.2.2.1
      "/root/luna-linux-build/chroot/boot/vmlinuz-5.15.0\n/root/luna-linux-build/chroot/boot/vmlinuz-5.19.0\n"
      (by decide)).2.2 (by decide) (by decide)⟩

set_option maxRecDepth 100000 in
/-- C11 fails for a long first line.  The search prints a path of 552 bytes
(no component above 200 bytes): `fgets` keeps its first 511, and the copy
command, cut to 511 bytes itself, names only the first 508 and no
destination.  For a path of 505 bytes the path read is the whole line, but
the copy command is cut inside the destination, which reads `/r`. -/
theorem search_selection_long_line :
    strlen long_kernel_path = 552 ∧
    single_byte long_kernel_path = true ∧
    first_line (long_kernel_path ++ "\n") = long_kernel_path ∧
    selected_path (long_kernel_path ++ "\n") ≠ some long_kernel_path ∧
    selected_path (long_kernel_path ++ "\n") = some (snprintf 512 long_kernel_path) ∧
    (system_calls (events_since (sim_world [])
      (prepare_iso_files (sim_os_found (fun _ => 0) (long_kernel_path ++ "\n"))
        (init_config "/root") (sim_world [])).2)).head? =
      some (snprintf 512 ("cp " ++ long_kernel_path), 0) ∧
    snprintf 512 ("cp " ++ long_kernel_path) ≠
      "cp " ++ long_kernel_path ++ " /root/luna-linux-build/image/vmlinuz" ∧
    strlen (snprintf 512 ("cp " ++ long_kernel_path)) = 511 ∧
    strlen mid_kernel_path = 505 ∧
    selected_path (mid_kernel_path ++ "\n") = some mid_kernel_path ∧
    (system_calls (events_since (sim_world [])
      (prepare_iso_files (sim_os_found (fun _ => 0) (mid_kernel_path ++ "\n"))
        (init_config "/root") (sim_world [])).2)).head? =
      some ("cp " ++ mid_kernel_path ++ " /r", 0) := by
  decide

end Luna
